import Mathlib

/-!
# Shallow embedding of the koneko BASIC engine

This file embeds the BASIC-style scripting core of the koneko repository:
the lexer, parser and program store from `src/basic.rs` and the tree-walking
interpreter from `src/koneko.rs` (the module compiled by `src/main.rs`;
`src/koneko_basic.rs` is an uncompiled alternate copy and is not the authority).

Modelling conventions:
* Rust `i64` is embedded as `Int` (no claim exercises 64-bit overflow).
* Rust `f64` is embedded as `F64`, an exact rational represented as an
  unnormalized numerator/denominator pair with purely integer-arithmetic
  operations (kernel-computable); every floating-point computation the claims
  exercise is exact in `f64`, so the exact-rational model agrees with the code
  there.
* A Rust `Result` is embedded as `RRes`, with extra constructors for a Rust
  panic (`unwrap`, out-of-bounds indexing, integer division by zero), for calls
  into external capabilities (clock, RNG, trigonometry, filesystem) whose
  results are not modelled, and for fuel exhaustion, an artifact of the
  fuel-based embedding of the source's general recursion, unreachable when the
  fuel exceeds the size of the computation.
* Vec-based stacks (`call_stack`, `while_stack`, `for_stack`) push at the end
  and peek/pop from the end; they are embedded as lists with the most recent
  entry at the head (cons = push, head = last = top of stack).
* The `HashMap` environment is embedded as an association list with
  insert-replaces semantics; lookup order is irrelevant to the map semantics.
* Pixel/video output is outside the value model: drawing commands are embedded
  with their full argument validation, with the final write to the pixel
  buffer omitted.
-/

/-- Outcome of an embedded Rust computation: `Ok`, `Err`, a Rust panic,
an unmodelled external-capability call, or fuel exhaustion (embedding
artifact, see the module docstring). -/
inductive RRes (α : Type) where
  | ok (a : α)
  | err (e : String)
  | panic
  | externalCall
  | fuelOut
deriving DecidableEq

/-- `true` exactly on `err`. -/
def RRes.isErr {α : Type} : RRes α → Bool
  | .err _ => true
  | _ => false

/-- Sequencing mirroring Rust's `?` operator: `err`, `panic`, `externalCall`
and `fuelOut` short-circuit. -/
def RRes.bind {α β : Type} : RRes α → (α → RRes β) → RRes β
  | .ok a, f => f a
  | .err e, _ => .err e
  | .panic, _ => .panic
  | .externalCall, _ => .externalCall
  | .fuelOut, _ => .fuelOut

/-- Exact-rational model of Rust `f64`: an unnormalized fraction with
positive denominator, with arithmetic defined directly on the
numerator/denominator pair so every operation kernel-computes. The embedding
only observes an `F64` through its comparisons and conversions, never through
structural equality of the pair. -/
structure F64 where
  num : Int
  den : Int
deriving DecidableEq

/-- `i64 as f64` (exact for the magnitudes the claims exercise). -/
def F64.ofInt (n : Int) : F64 := ⟨n, 1⟩

/-- `f64` addition (exact; no claim exercises a value where `f64` rounds). -/
def F64.add (a b : F64) : F64 := ⟨a.num * b.den + b.num * a.den, a.den * b.den⟩

/-- `f64` subtraction. -/
def F64.sub (a b : F64) : F64 := ⟨a.num * b.den - b.num * a.den, a.den * b.den⟩

/-- `f64` multiplication. -/
def F64.mul (a b : F64) : F64 := ⟨a.num * b.num, a.den * b.den⟩

/-- `f64` division. Division by zero yields `±inf`/`NaN` in `f64`, which has
no rational counterpart (this gives `0`); no claim exercises it. -/
def F64.div (a b : F64) : F64 :=
  if b.num = 0 then ⟨0, 1⟩
  else if b.num < 0 then ⟨-(a.num * b.den), a.den * -b.num⟩
  else ⟨a.num * b.den, a.den * b.num⟩

/-- `f64` negation. -/
def F64.neg (a : F64) : F64 := ⟨-a.num, a.den⟩

/-- `f64` `<` (exact on rationals; the denominators are positive by
construction). -/
def F64.blt (a b : F64) : Bool := a.num * b.den < b.num * a.den

/-- `f64::abs`. -/
def F64.abs (a : F64) : F64 := ⟨|a.num|, a.den⟩

/-- Rust `f64 as i64`: truncation toward zero (saturation at the `i64`
bounds is not modelled; no claim exercises it). -/
def F64.truncToInt (a : F64) : Int := Int.tdiv a.num a.den

/-- Rust `f64::round`: half away from zero. -/
def F64.roundToInt (a : F64) : Int :=
  if 0 ≤ a.num then Int.tdiv (2 * a.num + a.den) (2 * a.den)
  else -Int.tdiv (2 * -a.num + a.den) (2 * a.den)

/-- Rust `f64::signum` (`1.0` for non-negative, `-1.0` for negative; the
`-0.0` and NaN cases have no rational counterpart and are not exercised). -/
def F64.signum (a : F64) : F64 := if a.num < 0 then ⟨-1, 1⟩ else ⟨1, 1⟩

/-- Rust `f64 %` (remainder with the dividend's sign); `% 0.0` would be NaN
in `f64` (this gives the dividend); no claim exercises it. -/
def F64.rem (l r : F64) : F64 :=
  if r.num = 0 then l
  else F64.sub l (F64.mul r (F64.ofInt (F64.truncToInt (F64.div l r))))

/-- `Value` from `src/basic.rs`: the closed dynamic value type
(String, Integer(i64), Float(f64), Array, Nil). -/
inductive Value where
  | string (s : String)
  | integer (n : Int)
  | float (q : F64)
  | array (elements : List Value)
  | nil

/-- `Token` from `src/basic.rs`. -/
inductive Token where
  | integer (n : Int)
  | float (q : F64)
  | string (s : String)
  | lparen
  | rparen
  | lsquare
  | rsquare
  | lcurly
  | rcurly
  | eq
  | eqEq
  | neq
  | lt
  | gt
  | lte
  | gte
  | add
  | sub
  | mul
  | div
  | percent
  | comma
  | identifier (s : String)
  | forT
  | nextT
  | toT
  | stepT
  | ifT
  | thenT
  | elseT
  | gotoT
  | gosubT
  | retT
  | endT
  | pipe
  | ampersand
  | exclamation
deriving DecidableEq

/-- `Node` from `src/basic.rs`: the AST produced by the parser. -/
inductive Node where
  | forN (name : String) (start end_ step : Node)
  | ifN (cond then_ else_ : Node)
  | assign (name : String) (value : Node)
  | binOp (op : Token) (left right : Node)
  | unOp (op : Token) (right : Node)
  | builtinCommand (name : String) (args : List Node)
  | integer (n : Int)
  | float (q : F64)
  | string (s : String)
  | varGet (name : String)
  | array (elements : List Node)
  | emptyArray (size : Node)
  | indexGet (name : String) (index : Node)
  | indexSet (name : String) (index : Node) (value : Node)
  | endN
  | nilN

/-- `Line` from `src/basic.rs`: a stored program line. `line_no = 0` is
`INVALID_LINE_NO`, the marker for an unnumbered (immediate) line. -/
structure Line where
  line_no : Nat
  node : Node
  contents : String

/-- Rust `str::parse::<i64>`: optional sign followed by one or more ASCII
digits, `none` on anything else (overflow is not modelled; no claim
exercises it). -/
def parseI64 (s : String) : Option Int :=
  let cs := s.toList
  let signDigits : Int × List Char :=
    match cs with
    | '+' :: rest => (1, rest)
    | '-' :: rest => (-1, rest)
    | _ => (1, cs)
  if signDigits.2 = [] then none
  else if signDigits.2.all (fun c => '0' ≤ c ∧ c ≤ '9') then
    some (signDigits.1 *
      (signDigits.2.foldl (fun acc c => acc * 10 + ((c.toNat : Int) - 48)) 0))
  else none

/-- Rust `str::parse::<f64>` modelled on plain decimal strings (optional sign,
digits, optional `.` and fraction digits); other forms Rust accepts
(exponents, `inf`, `NaN`) are not modelled and no claim exercises them. -/
def parseF64 (s : String) : Option F64 :=
  let cs := s.toList
  let signDigits : Int × List Char :=
    match cs with
    | '+' :: rest => (1, rest)
    | '-' :: rest => (-1, rest)
    | _ => (1, cs)
  let intPart := signDigits.2.takeWhile (fun c => '0' ≤ c ∧ c ≤ '9')
  let rest := signDigits.2.dropWhile (fun c => '0' ≤ c ∧ c ≤ '9')
  let digitsVal : List Char → Int := fun ds =>
    ds.foldl (fun acc c => acc * 10 + ((c.toNat : Int) - 48)) 0
  match rest with
  | [] =>
    if intPart = [] then none
    else some (F64.ofInt (signDigits.1 * digitsVal intPart))
  | '.' :: fracCs =>
    if fracCs.all (fun c => '0' ≤ c ∧ c ≤ '9') ∧ ¬ (intPart = [] ∧ fracCs = []) then
      some ⟨signDigits.1 * (digitsVal intPart * (10 : Int) ^ fracCs.length
        + digitsVal fracCs), (10 : Int) ^ fracCs.length⟩
    else none
  | _ => none

/-- Approximation of Rust's `{:?}` debug formatting of a `Value`, used only
inside error message text; no theorem in this file depends on the exact
string this produces. -/
def debugValue : Value → String
  | .string s => "String(\"" ++ s ++ "\")"
  | .integer n => "Integer(" ++ toString n ++ ")"
  | .float q => "Float(" ++ toString q.num ++ "/" ++ toString q.den ++ ")"
  | .array _ => "Array([..])"
  | .nil => "Nil"

/-- Approximation of Rust's `{:?}` debug formatting of a `Token`, used only
inside error message text; no theorem depends on the exact string. -/
def debugToken : Token → String
  | .integer n => "Integer(" ++ toString n ++ ")"
  | .float q => "Float(" ++ toString q.num ++ "/" ++ toString q.den ++ ")"
  | .string s => "String(\"" ++ s ++ "\")"
  | .identifier s => "Identifier(\"" ++ s ++ "\")"
  | .lparen => "LParen"
  | .rparen => "RParen"
  | .lsquare => "LSquare"
  | .rsquare => "RSquare"
  | .lcurly => "LCurly"
  | .rcurly => "RCurly"
  | .eq => "Eq"
  | .eqEq => "EqEq"
  | .neq => "Neq"
  | .lt => "Lt"
  | .gt => "Gt"
  | .lte => "Lte"
  | .gte => "Gte"
  | .add => "Add"
  | .sub => "Sub"
  | .mul => "Mul"
  | .div => "Div"
  | .percent => "Percent"
  | .comma => "Comma"
  | .forT => "For"
  | .nextT => "Next"
  | .toT => "To"
  | .stepT => "Step"
  | .ifT => "If"
  | .thenT => "Then"
  | .elseT => "Else"
  | .gotoT => "Goto"
  | .gosubT => "Gosub"
  | .retT => "Ret"
  | .endT => "End"
  | .pipe => "Pipe"
  | .ampersand => "Ampersand"
  | .exclamation => "Exclamation"

/-- Approximation of Rust's `{:?}` debug formatting of a `Node` (constructor
name only), used only inside error message text; no theorem depends on it. -/
def debugNode : Node → String
  | .forN _ _ _ _ => "For"
  | .ifN _ _ _ => "If"
  | .assign _ _ => "Assign"
  | .binOp _ _ _ => "BinOp"
  | .unOp _ _ => "UnOp"
  | .builtinCommand _ _ => "BuiltinCommand"
  | .integer n => "Integer(" ++ toString n ++ ")"
  | .float q => "Float(" ++ toString q.num ++ "/" ++ toString q.den ++ ")"
  | .string s => "String(\"" ++ s ++ "\")"
  | .varGet s => "VarGet(\"" ++ s ++ "\")"
  | .array _ => "Array"
  | .emptyArray _ => "EmptyArray"
  | .indexGet _ _ => "IndexGet"
  | .indexSet _ _ _ => "IndexSet"
  | .endN => "End"
  | .nilN => "Nil"

mutual

/-- `Value::to_string` from `src/basic.rs` (the `delimiters` flag adds braces
and comma separators around arrays). Rust's `f64` `Display` is approximated by
printing the exact fraction; no claim exercises float printing. -/
def Value.to_string : Value → Bool → String
  | .string s, _ => s
  | .integer n, _ => toString n
  | .float q, _ => toString q.num ++ "/" ++ toString q.den
  | .array vs, delimiters =>
    (if delimiters then "\x7b" else "") ++ Value.toStringElems vs delimiters
      ++ (if delimiters then "\x7d" else "")
  | .nil, _ => "nil"

/-- The element loop of `Value::to_string`: separator after every element but
the last, and only when `delimiters` is set. -/
def Value.toStringElems : List Value → Bool → String
  | [], _ => ""
  | [v], d => Value.to_string v d
  | v :: rest, d =>
    Value.to_string v d ++ (if d then ", " else "") ++ Value.toStringElems rest d

end

/-- `Value::is_truthy` from `src/basic.rs`. -/
def Value.is_truthy : Value → Bool
  | .string s => !s.isEmpty
  | .integer n => n ≠ 0
  | .float q => q.num ≠ 0
  | .array vs => !vs.isEmpty
  | .nil => false

/-- `Value::comparison_value` from `src/basic.rs`: the `f64` a value compares
as; Strings and Arrays are errors, Nil compares as `0.0`. -/
def Value.comparison_value : Value → RRes F64
  | .string s => .err ("Cannot compare string \"" ++ s ++ "\"!")
  | .integer n => .ok (F64.ofInt n)
  | .float q => .ok q
  | .array _ => .err "Cannot compare array!"
  | .nil => .ok (F64.ofInt 0)

/-- `Value::to_integer` from `src/basic.rs`. The String arm is
`string.parse::<i64>().unwrap()`: a non-numeric string is a Rust panic,
not an `Err`. -/
def Value.to_integer : Value → RRes Int
  | .string s =>
    match parseI64 s with
    | some n => .ok n
    | none => .panic
  | .integer n => .ok n
  | .float q => .ok q.truncToInt
  | .nil => .ok 0
  | .array _ => .err "Cannot convert array to integer!"

/-- `Value::to_float` from `src/basic.rs`; the String arm is
`string.parse::<f64>().unwrap()` (panic on failure). -/
def Value.to_float : Value → RRes F64
  | .string s =>
    match parseF64 s with
    | some q => .ok q
    | none => .panic
  | .integer n => .ok (F64.ofInt n)
  | .float q => .ok q
  | .nil => .ok (F64.ofInt 0)
  | .array _ => .err "Cannot convert array to float!"

/-- The `symbols` map built in `Koneko::new` (`src/koneko.rs`). -/
def symbolToken (c : Char) : Option Token :=
  if c = '(' then some .lparen
  else if c = ')' then some .rparen
  else if c = '[' then some .lsquare
  else if c = ']' then some .rsquare
  else if c = Char.ofNat 123 then some .lcurly
  else if c = Char.ofNat 125 then some .rcurly
  else if c = '+' then some .add
  else if c = '-' then some .sub
  else if c = '*' then some .mul
  else if c = '/' then some .div
  else if c = '|' then some .pipe
  else if c = '&' then some .ampersand
  else if c = '!' then some .exclamation
  else if c = '%' then some .percent
  else if c = ',' then some .comma
  else none

/-- The `keywords` map built in `Koneko::new`: only `to` and `step`. -/
def keywordToken (s : String) : Option Token :=
  if s = "to" then some .toT
  else if s = "step" then some .stepT
  else none

/-- The `builtin_commands` list from `ParseOptions` in `Koneko::new`. -/
def builtin_commands : List String :=
  ["print", "next", "loop", "while", "sin", "cos", "goto", "gosub", "end",
   "ret", "dot", "time", "cls", "delay", "refresh", "poly", "line", "str",
   "int", "chr", "rnd", "rad", "deg", "save", "load"]

/-- Digit accumulation loop of the lexer (`num = num * 10 + digit`),
returning the value and the unconsumed remainder. -/
def takeDigits : List Char → Int → Int × List Char
  | [], acc => (acc, [])
  | c :: cs, acc =>
    if '0' ≤ c ∧ c ≤ '9' then takeDigits cs (acc * 10 + ((c.toNat : Int) - 48))
    else (acc, c :: cs)

/-- Fractional-part loop of the lexer (`dec = dec*10 + digit; div *= 10`):
the source accumulates in `f64`, but both accumulators hold exact integer
values throughout, embedded as `Int`. -/
def takeFrac : List Char → Int → Int → Int × Int × List Char
  | [], dec, div => (dec, div, [])
  | c :: cs, dec, div =>
    if '0' ≤ c ∧ c ≤ '9' then takeFrac cs (dec * 10 + ((c.toNat : Int) - 48)) (div * 10)
    else (dec, div, c :: cs)

/-- String-literal loop of the lexer: everything up to the next `"` (no
escapes), the closing quote consumed if present. -/
def takeStr : List Char → String × List Char
  | [] => ("", [])
  | c :: cs =>
    if c = '"' then ("", cs)
    else
      let r := takeStr cs
      (c.toString ++ r.1, r.2)

/-- Identifier character test from the lexer: letters, digits, underscore. -/
def isIdentChar (c : Char) : Bool :=
  ('a' ≤ c ∧ c ≤ 'z') ∨ ('A' ≤ c ∧ c ≤ 'Z') ∨ c = '_' ∨ ('0' ≤ c ∧ c ≤ '9')

/-- Identifier accumulation loop, then one optional trailing `$` or `%`
sigil consumed as part of the name. -/
def takeIdent (cs : List Char) : String × List Char :=
  let body := cs.takeWhile isIdentChar
  let rest := cs.dropWhile isIdentChar
  match rest with
  | c :: rest' =>
    if c = '$' ∨ c = '%' then (String.mk body ++ c.toString, rest')
    else (String.mk body, rest)
  | [] => (String.mk body, [])

/-- The main loop of `BASIC::lex_line` (`src/basic.rs`); `fuel` bounds the
iteration count, and every iteration consumes at least one character, so
`length + 1` fuel never runs out. -/
def lexLoop : Nat → List Char → List Token → RRes (List Token)
  | 0, _, _ => .fuelOut
  | _ + 1, [], acc => .ok acc.reverse
  | fuel + 1, c :: cs, acc =>
    if '0' ≤ c ∧ c ≤ '9' then
      let numRest := takeDigits (c :: cs) 0
      match numRest.2 with
      | [] => .ok ((Token.integer numRest.1 :: acc).reverse)
      | d :: rest' =>
        if d = '.' then
          let fr := takeFrac rest' 0 1
          lexLoop fuel fr.2.2
            (Token.float (F64.add (F64.ofInt numRest.1)
              (F64.div (F64.ofInt fr.1) (F64.ofInt fr.2.1))) :: acc)
        else lexLoop fuel numRest.2 (Token.integer numRest.1 :: acc)
    else if c = '"' then
      let sr := takeStr cs
      lexLoop fuel sr.2 (Token.string sr.1 :: acc)
    else if c = '<' then
      match cs with
      | '>' :: rest => lexLoop fuel rest (Token.neq :: acc)
      | '=' :: rest => lexLoop fuel rest (Token.lte :: acc)
      | _ => lexLoop fuel cs (Token.lt :: acc)
    else if c = '>' then
      match cs with
      | '=' :: rest => lexLoop fuel rest (Token.gte :: acc)
      | _ => lexLoop fuel cs (Token.gt :: acc)
    else if c = '=' then
      match cs with
      | '=' :: rest => lexLoop fuel rest (Token.eqEq :: acc)
      | _ => lexLoop fuel cs (Token.eq :: acc)
    else if ('a' ≤ c ∧ c ≤ 'z') ∨ ('A' ≤ c ∧ c ≤ 'Z') ∨ c = '_' then
      let ir := takeIdent (c :: cs)
      match keywordToken ir.1 with
      | some t => lexLoop fuel ir.2 (t :: acc)
      | none => lexLoop fuel ir.2 (Token.identifier ir.1 :: acc)
    else if c = '\t' ∨ c = ' ' ∨ c = '\n' ∨ c = '\r' then
      lexLoop fuel cs acc
    else
      match symbolToken c with
      | some t => lexLoop fuel cs (t :: acc)
      | none => .err ("Unknown token: " ++ c.toString)

/-- `BASIC::lex_line` from `src/basic.rs`. -/
def lex_line (src : String) : RRes (List Token) :=
  lexLoop (src.length + 1) src.toList []

/-- Rust's unguarded `tokens[idx]`: out-of-bounds indexing is a panic. -/
def idxTok (tokens : List Token) (idx : Nat) : RRes Token :=
  match tokens.get? idx with
  | some t => .ok t
  | none => .panic

/-- Selector standing in for the function pointers `BASIC::bin_op` receives
for its `lhs`/`rhs` sub-parsers. -/
inductive PLevel where
  | andL
  | cmpL
  | addL
  | mulL
  | atomL
deriving DecidableEq

mutual

/-- `BASIC::stmt` from `src/basic.rs`: dispatch on a leading identifier —
`for`-loop header, bare builtin-command form (space-separated argument
expressions to end of line), else an expression. -/
def pStmt : Nat → Nat → List Token → RRes (Nat × Node)
  | 0, _, _ => .fuelOut
  | fuel + 1, idx, tokens =>
    match tokens.get? idx with
    | some (.identifier name) =>
      if name = "for" then
        RRes.bind (idxTok tokens (idx + 1)) fun t1 =>
          match t1 with
          | .identifier vname =>
            RRes.bind (idxTok tokens (idx + 2)) fun t2 =>
              if t2 ≠ .eq then .err ("Expected '=', got " ++ debugToken t2)
              else
                RRes.bind (pExpr fuel (idx + 3) tokens) fun r1 =>
                  RRes.bind (idxTok tokens r1.1) fun t3 =>
                    if t3 ≠ .toT then .err ("Expected 'to', got " ++ debugToken t3)
                    else
                      RRes.bind (pExpr fuel (r1.1 + 1) tokens) fun r2 =>
                        match tokens.get? r2.1 with
                        | some .stepT =>
                          RRes.bind (pExpr fuel (r2.1 + 1) tokens) fun r3 =>
                            .ok (r3.1, .forN vname r1.2 r2.2 r3.2)
                        | _ => .ok (r2.1, .forN vname r1.2 r2.2 (.integer 1))
          | t => .err ("Expected identifier, got " ++ debugToken t)
      else if name ∈ builtin_commands then
        RRes.bind (pCmdArgs fuel (idx + 1) tokens []) fun r =>
          .ok (r.1, .builtinCommand name r.2)
      else pExpr fuel idx tokens
    | _ => pExpr fuel idx tokens
/-- The bare-command argument loop in `BASIC::stmt`: expressions greedily
until end of line. -/
def pCmdArgs : Nat → Nat → List Token → List Node → RRes (Nat × List Node)
  | 0, _, _, _ => .fuelOut
  | fuel + 1, idx, tokens, args =>
    if idx < tokens.length then
      RRes.bind (pExpr fuel idx tokens) fun r =>
        pCmdArgs fuel r.1 tokens (args ++ [r.2])
    else .ok (idx, args)
termination_by structural fuel _ _ _ => fuel

/-- `BASIC::expr`: the precedence chain entry (delegates to `or`). -/
def pExpr : Nat → Nat → List Token → RRes (Nat × Node)
  | 0, _, _ => .fuelOut
  | fuel + 1, idx, tokens => pOr fuel idx tokens
termination_by structural fuel _ _ => fuel

/-- `BASIC::or`: `bin_op(and, and, [Pipe])`. -/
def pOr : Nat → Nat → List Token → RRes (Nat × Node)
  | 0, _, _ => .fuelOut
  | fuel + 1, idx, tokens => pBinOp fuel .andL [Token.pipe] idx tokens
termination_by structural fuel _ _ => fuel

/-- `BASIC::and`: `bin_op(cmp, cmp, [Ampersand])`. -/
def pAnd : Nat → Nat → List Token → RRes (Nat × Node)
  | 0, _, _ => .fuelOut
  | fuel + 1, idx, tokens => pBinOp fuel .cmpL [Token.ampersand] idx tokens
termination_by structural fuel _ _ => fuel

/-- `BASIC::cmp`: explicit end-of-line check, a prefix `!` unary handled at
this level, else `bin_op(add, add, [Lt,Gt,Lte,Gte,EqEq,Neq])`. -/
def pCmp : Nat → Nat → List Token → RRes (Nat × Node)
  | 0, _, _ => .fuelOut
  | fuel + 1, idx, tokens =>
    if tokens.length ≤ idx then .err "Expected expression, got end of line!"
    else
      match tokens.get? idx with
      | some .exclamation =>
        RRes.bind (pCmp fuel (idx + 1) tokens) fun r =>
          .ok (r.1, .unOp .exclamation r.2)
      | _ =>
        pBinOp fuel .addL
          [Token.lt, Token.gt, Token.lte, Token.gte, Token.eqEq, Token.neq]
          idx tokens
termination_by structural fuel _ _ => fuel

/-- `BASIC::add`: `bin_op(mul, mul, [Add, Sub])`. -/
def pAdd : Nat → Nat → List Token → RRes (Nat × Node)
  | 0, _, _ => .fuelOut
  | fuel + 1, idx, tokens => pBinOp fuel .mulL [Token.add, Token.sub] idx tokens
termination_by structural fuel _ _ => fuel

/-- `BASIC::mul`: a leading `+`/`-` is a unary operator recursing back into
`mul` (unary sign binds at multiplicative precedence), else
`bin_op(atom, atom, [Mul, Div, Percent])`. The initial `tokens[idx]` is
unguarded in the source and can panic. -/
def pMul : Nat → Nat → List Token → RRes (Nat × Node)
  | 0, _, _ => .fuelOut
  | fuel + 1, idx, tokens =>
    RRes.bind (idxTok tokens idx) fun t =>
      if t = .add ∨ t = .sub then
        RRes.bind (pMul fuel (idx + 1) tokens) fun r =>
          .ok (r.1, .unOp t r.2)
      else pBinOp fuel .atomL [Token.mul, Token.div, Token.percent] idx tokens
termination_by structural fuel _ _ => fuel

/-- `BASIC::atom` from `src/basic.rs`: literals; identifier followed by a
builtin call form `(` args `)`, an index read/write `[e]`/`[e] = e`, an
assignment `= e`, or a bare variable read; `[size]` empty array; `{...}`
array literal; `(e)` grouping. The initial `tokens[idx]` is unguarded. -/
def pAtom : Nat → Nat → List Token → RRes (Nat × Node)
  | 0, _, _ => .fuelOut
  | fuel + 1, idx, tokens =>
    RRes.bind (idxTok tokens idx) fun t =>
      match t with
      | .integer n => .ok (idx + 1, .integer n)
      | .float q => .ok (idx + 1, .float q)
      | .string s => .ok (idx + 1, .string s)
      | .identifier name =>
        if idx + 1 < tokens.length ∧ tokens.get? (idx + 1) = some Token.lparen
            ∧ name ∈ builtin_commands then
          RRes.bind (pCallArgs fuel (idx + 2) tokens []) fun r =>
            .ok (r.1, .builtinCommand name r.2)
        else if idx + 1 < tokens.length ∧ tokens.get? (idx + 1) = some Token.lsquare then
          RRes.bind (pExpr fuel (idx + 2) tokens) fun r1 =>
            RRes.bind (idxTok tokens r1.1) fun t2 =>
              if t2 ≠ .rsquare then .err ("Expected ']', got " ++ debugToken t2)
              else if r1.1 + 1 < tokens.length
                  ∧ tokens.get? (r1.1 + 1) = some Token.eq then
                RRes.bind (pExpr fuel (r1.1 + 2) tokens) fun r2 =>
                  .ok (r2.1, .indexSet name r1.2 r2.2)
              else .ok (r1.1 + 1, .indexGet name r1.2)
        else if idx + 1 < tokens.length ∧ tokens.get? (idx + 1) = some Token.eq then
          RRes.bind (pExpr fuel (idx + 2) tokens) fun r =>
            .ok (r.1, .assign name r.2)
        else .ok (idx + 1, .varGet name)
      | .lsquare =>
        RRes.bind (pExpr fuel (idx + 1) tokens) fun r =>
          RRes.bind (idxTok tokens r.1) fun t2 =>
            if t2 ≠ .rsquare then .err ("Expected ']', got " ++ debugToken t2)
            else .ok (r.1 + 1, .emptyArray r.2)
      | .lcurly =>
        RRes.bind (pBraceElems fuel (idx + 1) tokens []) fun r =>
          .ok (r.1 + 1, .array r.2)
      | .lparen =>
        RRes.bind (pExpr fuel (idx + 1) tokens) fun r =>
          RRes.bind (idxTok tokens r.1) fun t2 =>
            if t2 ≠ .rparen then .err ("Expected ')', got " ++ debugToken t2)
            else .ok (r.1 + 1, r.2)
      | _ => .err ("Expected atom, got " ++ debugToken t)
termination_by structural fuel _ _ => fuel

/-- The call-form argument loop in `BASIC::atom`: expressions separated by
optional commas until `)` or end of tokens; the source then advances one
past the closing position unconditionally. -/
def pCallArgs : Nat → Nat → List Token → List Node → RRes (Nat × List Node)
  | 0, _, _, _ => .fuelOut
  | fuel + 1, idx, tokens, args =>
    if idx < tokens.length ∧ tokens.get? idx ≠ some Token.rparen then
      RRes.bind (pExpr fuel idx tokens) fun r =>
        let idx2 := if r.1 < tokens.length ∧ tokens.get? r.1 = some Token.comma
          then r.1 + 1 else r.1
        pCallArgs fuel idx2 tokens (args ++ [r.2])
    else .ok (idx + 1, args)
termination_by structural fuel _ _ _ => fuel

/-- The `{...}` array-literal element loop in `BASIC::atom` (the returned
index is the position of `}`; the caller advances past it). -/
def pBraceElems : Nat → Nat → List Token → List Node → RRes (Nat × List Node)
  | 0, _, _, _ => .fuelOut
  | fuel + 1, idx, tokens, elems =>
    if idx < tokens.length ∧ tokens.get? idx ≠ some Token.rcurly then
      RRes.bind (pExpr fuel idx tokens) fun r =>
        let idx2 := if r.1 < tokens.length ∧ tokens.get? r.1 = some Token.comma
          then r.1 + 1 else r.1
        pBraceElems fuel idx2 tokens (elems ++ [r.2])
    else .ok (idx, elems)
termination_by structural fuel _ _ _ => fuel

/-- `BASIC::bin_op` from `src/basic.rs`: parse the left operand at the given
sub-level, then left-associatively consume operators drawn from `ops` with
right operands at the same sub-level. -/
def pBinOp : Nat → PLevel → List Token → Nat → List Token → RRes (Nat × Node)
  | 0, _, _, _, _ => .fuelOut
  | fuel + 1, lvl, ops, idx, tokens =>
    RRes.bind (pLevel fuel lvl idx tokens) fun r =>
      pBinOpLoop fuel lvl ops r.1 r.2 tokens
termination_by structural fuel _ _ _ _ => fuel

/-- The operator-consuming loop of `BASIC::bin_op`. -/
def pBinOpLoop : Nat → PLevel → List Token → Nat → Node → List Token → RRes (Nat × Node)
  | 0, _, _, _, _, _ => .fuelOut
  | fuel + 1, lvl, ops, idx, left, tokens =>
    match tokens.get? idx with
    | some t =>
      if t ∈ ops then
        RRes.bind (pLevel fuel lvl (idx + 1) tokens) fun r =>
          pBinOpLoop fuel lvl ops r.1 (.binOp t left r.2) tokens
      else .ok (idx, left)
    | none => .ok (idx, left)
termination_by structural fuel _ _ _ _ _ => fuel

/-- Dispatch a `PLevel` selector to the corresponding parse function
(standing in for the source's function pointers). -/
def pLevel : Nat → PLevel → Nat → List Token → RRes (Nat × Node)
  | 0, _, _, _ => .fuelOut
  | fuel + 1, lvl, idx, tokens =>
    match lvl with
    | .andL => pAnd fuel idx tokens
    | .cmpL => pCmp fuel idx tokens
    | .addL => pAdd fuel idx tokens
    | .mulL => pMul fuel idx tokens
    | .atomL => pAtom fuel idx tokens
termination_by structural fuel _ _ _ => fuel

end

/-- Fuel that is always sufficient for the parser on the given token list:
between any two token-consuming steps the mutual recursion passes through a
bounded number of levels. -/
def parseFuel (tokens : List Token) : Nat := 30 * (tokens.length + 2)

/-- `Node::Nil` test used by `add_line` (`line.node == Node::Nil`,
via the derived `PartialEq`). -/
def isNilNode : Node → Bool
  | .nilN => true
  | _ => false

/-- `BASIC::parse_line` from `src/basic.rs`: optional leading integer literal
is the line number (0 = unnumbered/immediate); a bare number yields a `Nil`
node (deletion directive); otherwise parse one statement and require all
tokens consumed. -/
def parse_line (tokens : List Token) (original : String) : RRes Line :=
  if tokens.isEmpty then .err "Empty line!"
  else
    let numBegin : Nat × Nat :=
      match tokens.get? 0 with
      | some (.integer num) => (num.toNat, 1)
      | _ => (0, 0)
    if numBegin.2 = tokens.length then
      .ok ⟨numBegin.1, .nilN, original⟩
    else
      RRes.bind (pStmt (parseFuel tokens) numBegin.2 tokens) fun r =>
        if r.1 ≠ tokens.length then
          match tokens.get? r.1 with
          | some t =>
            .err ("Expected end of line, got " ++ debugToken t ++ " on line "
              ++ toString numBegin.1)
          | none => .panic
        else .ok ⟨numBegin.1, r.2, original⟩

/-- Lex then parse one source line (the `lex_line`/`parse_line` sequence at
the top of `BASIC::add_line`). -/
def lexParse (src : String) : RRes Line :=
  RRes.bind (lex_line src) fun tokens => parse_line tokens src

/-- `BASIC::remove_line`: retain every line with a different number. -/
def remove_line (program : List Line) (line_no : Nat) : List Line :=
  program.filter (fun x => x.line_no ≠ line_no)

/-- The `Ord for Line` ordering (`line_no` only) used by `program.sort()`. -/
def lineLe (a b : Line) : Prop := a.line_no ≤ b.line_no

instance : DecidableRel lineLe := fun a b => Nat.decLe a.line_no b.line_no

instance : IsTotal Line lineLe := ⟨fun a b => Nat.le_total a.line_no b.line_no⟩

instance : IsTrans Line lineLe := ⟨fun _ _ _ hab hbc => Nat.le_trans hab hbc⟩

/-- `BASIC::add_line` from `src/basic.rs`, acting on the program store:
unnumbered lines are returned for immediate execution; a numbered empty line
deletes; an existing number is replaced in place; otherwise push and re-sort.
`Vec::sort` is a stable sort by `line_no`; a stable sort's output is uniquely
determined by its input, so it is embedded as a stable insertion sort. -/
def add_line (program : List Line) (src : String) : List Line × RRes (Option Node) :=
  match lexParse src with
  | .ok line =>
    if line.line_no = 0 then (program, .ok (some line.node))
    else if isNilNode line.node then
      (remove_line program line.line_no, .ok none)
    else
      match program.findIdx? (fun x => x.line_no == line.line_no) with
      | some idx => (program.set idx line, .ok none)
      | none => (List.insertionSort lineLe (program ++ [line]), .ok none)
  | .err e => (program, .err e)
  | .panic => (program, .panic)
  | .externalCall => (program, .externalCall)
  | .fuelOut => (program, .fuelOut)

/-- Interpreter state: the `BASIC` struct fields from `src/basic.rs` that the
interpreter mutates, plus `printed_text` from the `Koneko` struct
(`src/koneko.rs`). `line_no` is the execution cursor (an index into
`program`). Stacks are lists with the most recent entry at the head. -/
structure KState where
  program : List Line
  vars : List (String × Value)
  line_no : Nat
  call_stack : List Nat
  while_stack : List Nat
  for_stack : List (Nat × Value × Value)
  no_increment_instr_counter : Bool
  refresh : Bool
  printed_text : List String

/-- `HashMap::get` on the environment. -/
def envGet (env : List (String × Value)) (name : String) : Option Value :=
  match env.find? (fun p => p.1 == name) with
  | some p => some p.2
  | none => none

/-- `HashMap::insert` on the environment: replace an existing binding,
else add one. -/
def envInsert (env : List (String × Value)) (name : String) (v : Value) :
    List (String × Value) :=
  match env.findIdx? (fun p => p.1 == name) with
  | some i => env.set i (name, v)
  | none => env ++ [(name, v)]

/-- `HashMap::remove` on the environment. -/
def envRemove (env : List (String × Value)) (name : String) :
    List (String × Value) :=
  env.filter (fun p => p.1 ≠ name)

/-- Thread interpreter state through a result, mirroring Rust's `?` on
`self.interpret(..)` calls: mutations made before a failure persist. -/
def bindI (r : KState × RRes Value) (f : KState → Value → KState × RRes Value) :
    KState × RRes Value :=
  match r with
  | (st, .ok v) => f st v
  | (st, .err e) => (st, .err e)
  | (st, .panic) => (st, .panic)
  | (st, .externalCall) => (st, .externalCall)
  | (st, .fuelOut) => (st, .fuelOut)

/-- Rust's `?` on a pure sub-result, keeping the current state on failure. -/
def liftR {α : Type} (st : KState) (r : RRes α) (f : α → KState × RRes Value) :
    KState × RRes Value :=
  match r with
  | .ok a => f a
  | .err e => (st, .err e)
  | .panic => (st, .panic)
  | .externalCall => (st, .externalCall)
  | .fuelOut => (st, .fuelOut)

/-- The `<=`/`>=` epsilon from `src/koneko.rs` (`0.0000001`). -/
def epsK : F64 := ⟨1, 10000000⟩

/-- The `Node::BinOp` operator dispatch from `Koneko::interpret`
(`src/koneko.rs` lines 705-769), applied to the two evaluated operands.
Integer `/` and `%` by zero are Rust panics. Note the dispatch has **no**
arm for `EqEq`, `Neq`, `Pipe` or `Ampersand`: those fall to the catch-all
error. -/
def evalBinOp (op : Token) (left right : Value) : RRes Value :=
  match op with
  | .add =>
    match left, right with
    | .integer l, .integer r => .ok (.integer (l + r))
    | .float l, .float r => .ok (.float (F64.add l r))
    | .integer l, .float r => .ok (.float (F64.add (F64.ofInt l) r))
    | .float l, .integer r => .ok (.float (F64.add l (F64.ofInt r)))
    | .string l, .string r => .ok (.string (l ++ r))
    | _, _ =>
      .err ("Cannot compare " ++ debugValue left ++ " and " ++ debugValue right
        ++ " with op " ++ debugToken op)
  | .sub =>
    match left, right with
    | .integer l, .integer r => .ok (.integer (l - r))
    | .float l, .float r => .ok (.float (F64.sub l r))
    | .integer l, .float r => .ok (.float (F64.sub (F64.ofInt l) r))
    | .float l, .integer r => .ok (.float (F64.sub l (F64.ofInt r)))
    | _, _ =>
      .err ("Cannot compare " ++ debugValue left ++ " and " ++ debugValue right
        ++ " with op " ++ debugToken op)
  | .percent =>
    match left, right with
    | .integer l, .integer r => if r = 0 then .panic else .ok (.integer (Int.tmod l r))
    | .float l, .float r => .ok (.float (F64.rem l r))
    | .integer l, .float r => .ok (.float (F64.rem (F64.ofInt l) r))
    | .float l, .integer r => .ok (.float (F64.rem l (F64.ofInt r)))
    | _, _ =>
      .err ("Cannot compare " ++ debugValue left ++ " and " ++ debugValue right
        ++ " with op " ++ debugToken op)
  | .mul =>
    match left, right with
    | .integer l, .integer r => .ok (.integer (l * r))
    | .float l, .float r => .ok (.float (F64.mul l r))
    | .integer l, .float r => .ok (.float (F64.mul (F64.ofInt l) r))
    | .float l, .integer r => .ok (.float (F64.mul l (F64.ofInt r)))
    | _, _ =>
      .err ("Cannot compare " ++ debugValue left ++ " and " ++ debugValue right
        ++ " with op " ++ debugToken op)
  | .div =>
    match left, right with
    | .integer l, .integer r => if r = 0 then .panic else .ok (.integer (Int.tdiv l r))
    | .float l, .float r => .ok (.float (F64.div l r))
    | .integer l, .float r => .ok (.float (F64.div (F64.ofInt l) r))
    | .float l, .integer r => .ok (.float (F64.div l (F64.ofInt r)))
    | _, _ =>
      .err ("Cannot compare " ++ debugValue left ++ " and " ++ debugValue right
        ++ " with op " ++ debugToken op)
  | .lt =>
    RRes.bind left.comparison_value fun lc =>
      RRes.bind right.comparison_value fun rc =>
        .ok (.integer (if F64.blt lc rc then 1 else 0))
  | .gt =>
    RRes.bind left.comparison_value fun lc =>
      RRes.bind right.comparison_value fun rc =>
        .ok (.integer (if F64.blt rc lc then 1 else 0))
  | .gte =>
    RRes.bind left.comparison_value fun lc =>
      RRes.bind right.comparison_value fun rc =>
        .ok (.integer (if F64.blt rc lc || F64.blt (F64.abs (F64.sub lc rc)) epsK
          then 1 else 0))
  | .lte =>
    RRes.bind left.comparison_value fun lc =>
      RRes.bind right.comparison_value fun rc =>
        .ok (.integer (if F64.blt lc rc || F64.blt (F64.abs (F64.sub lc rc)) epsK
          then 1 else 0))
  | _ =>
    .err ("Cannot compare " ++ debugValue left ++ " and " ++ debugValue right
      ++ " with op " ++ debugToken op)

/-- `Koneko::palette_idx_from_value` (`src/koneko.rs`): integer palette index
(low 8 bits, Rust `as u8`) or a recognized color-name string mapped to the
`Sweetie16` discriminants. -/
def palette_idx_from_value : Value → RRes Nat
  | .integer num => .ok ((num.emod 256).toNat)
  | .string s =>
    if s = "orange" ∨ s = "org" then .ok 3
    else if s = "red" then .ok 2
    else if s = "yellow" ∨ s = "yel" then .ok 4
    else if s = "green" ∨ s = "grn" then .ok 6
    else if s = "blue" ∨ s = "blu" then .ok 9
    else if s = "light_blue" then .ok 10
    else if s = "deep_blue" then .ok 8
    else if s = "light_green" then .ok 5
    else if s = "teal" then .ok 7
    else if s = "aqua" then .ok 11
    else if s = "dark_gray" then .ok 15
    else if s = "medium_gray" then .ok 14
    else if s = "light_gray" then .ok 13
    else if s = "purple" ∨ s = "pur" then .ok 1
    else if s = "black" ∨ s = "blk" then .ok 0
    else if s = "white" ∨ s = "wht" then .ok 12
    else .err ("Unknown color " ++ s)
  | v => .err ("Expected integer, got " ++ debugValue v)

/-- One coordinate of the point-conversion in `poly`/`line`: Integer as-is,
Float rounded, anything else an error. -/
def valToCoord : Value → RRes Int
  | .integer n => .ok n
  | .float q => .ok q.roundToInt
  | v => .err ("Expected integer, got " ++ debugValue v)

/-- The `array_to_vec2i` closure in the `poly` arm of `Koneko::interpret`:
a 2-element Array of numbers becomes a point. -/
def array_to_vec2i : Value → RRes (Int × Int)
  | .array elements =>
    if elements.length ≠ 2 then
      .err ("Expected array of length 2, got " ++ toString elements.length)
    else
      match elements.get? 0, elements.get? 1 with
      | some e0, some e1 =>
        RRes.bind (valToCoord e0) fun x =>
          RRes.bind (valToCoord e1) fun y => .ok (x, y)
      | _, _ => .panic
  | v => .err ("Expected integer, got " ++ debugValue v)

/-- Convert a list of already-evaluated values to points (the element loop of
the point-list form of `poly`). -/
def vec2iList : List Value → RRes (List (Int × Int))
  | [] => .ok []
  | v :: rest =>
    RRes.bind (array_to_vec2i v) fun p =>
      RRes.bind (vec2iList rest) fun ps => .ok (p :: ps)

/-- The vertex-count check at the top of `Koneko::draw_poly`; the even-odd
scanline fill itself only writes pixels and is omitted. -/
def drawPolyCheck (pts : List (Int × Int)) : RRes Unit :=
  if pts.length < 3 then
    .err ("Polygon must have at least 3 vertices, got " ++ toString pts.length)
  else .ok ()

/-- `TEXT_HEIGHT` from `src/koneko.rs`: `HEIGHT / 12 = 300 / 12`. -/
def TEXT_HEIGHT : Nat := 25

/-- `Koneko::print`: append to `printed_text`, dropping the oldest entry when
the screen is full (the glyph drawing is omitted). -/
def kprint (st : KState) (text : String) : KState :=
  if st.printed_text.length + 1 > TEXT_HEIGHT then
    { st with printed_text := st.printed_text.drop 1 ++ [text] }
  else { st with printed_text := st.printed_text ++ [text] }

mutual

/-- `Koneko::interpret` from `src/koneko.rs`: the tree-walking evaluator.
State mutations made before a failing sub-evaluation persist (no rollback).
`fuel` bounds the recursion (the `loop` builtin re-interprets a node fetched
from the program store, so the recursion is not structural). -/
def interp : Nat → KState → Node → KState × RRes Value
  | 0, st, _ => (st, .fuelOut)
  | fuel + 1, st, node =>
    match node with
    | .integer n => (st, .ok (.integer n))
    | .float q => (st, .ok (.float q))
    | .string s => (st, .ok (.string s))
    | .varGet name =>
      match envGet st.vars name with
      | some v => (st, .ok v)
      | none => (st, .err ("Variable " ++ name ++ " not found!"))
    | .assign name value =>
      bindI (interp fuel st value) fun st1 v =>
        ({ st1 with vars := envInsert st1.vars name v }, .ok v)
    | .forN name start end_ step =>
      match envGet st.vars name with
      | some _ => (st, .err ("Variable " ++ name ++ " already exists!"))
      | none =>
        bindI (interp fuel st start) fun st1 vstart =>
          bindI (interp fuel st1 end_) fun st2 vend =>
            bindI (interp fuel st2 step) fun st3 vstep =>
              ({ st3 with vars := envInsert st3.vars name vstart,
                          for_stack := (st3.line_no, vend, vstep) :: st3.for_stack },
               .ok .nil)
    | .ifN cond then_ else_ =>
      bindI (interp fuel st cond) fun st1 vcond =>
        if vcond.is_truthy then interp fuel st1 then_
        else interp fuel st1 else_
    | .binOp op left right =>
      bindI (interp fuel st left) fun st1 lv =>
        bindI (interp fuel st1 right) fun st2 rv =>
          (st2, evalBinOp op lv rv)
    | .unOp op right =>
      match op with
      | .exclamation =>
        bindI (interp fuel st right) fun st1 v =>
          (st1, .ok (.integer (if v.is_truthy then 0 else 1)))
      | .sub =>
        bindI (interp fuel st right) fun st1 v =>
          match v with
          | .integer n => (st1, .ok (.integer (-n)))
          | .float q => (st1, .ok (.float q.neg))
          | _ => (st1, .err ("Cannot negate " ++ debugValue v))
      | .add =>
        bindI (interp fuel st right) fun st1 v =>
          match v with
          | .integer n => (st1, .ok (.integer n))
          | .float q => (st1, .ok (.float q))
          | _ => (st1, .err ("Cannot negate " ++ debugValue v))
      | _ => (st, .err ("Unknown unary operator " ++ debugToken op))
    | .builtinCommand name args => interpBuiltin fuel st name args
    | .endN => ({ st with line_no := st.program.length }, .ok .nil)
    | .nilN => (st, .ok .nil)
    | .array elements => interpArrayElems fuel st elements []
    | .indexGet name index =>
      bindI (interp fuel st index) fun st1 vindex =>
        match vindex with
        | .integer num =>
          match envGet st1.vars name with
          | some (.array arr) =>
            if num < 0 ∨ arr.length ≤ num.toNat then
              (st1, .err ("Index " ++ toString num
                ++ " out of bounds for array of length " ++ toString arr.length))
            else
              match arr.get? num.toNat with
              | some v => (st1, .ok v)
              | none => (st1, .panic)
          | other =>
            (st1, .err ("Expected array, got "
              ++ (match other with | some v => debugValue v | none => "None")))
        | _ => (st1, .err ("Expected integer, got " ++ debugValue vindex))
    | .indexSet name index value =>
      bindI (interp fuel st index) fun st1 vindex =>
        match vindex with
        | .integer num =>
          bindI (interp fuel st1 value) fun st2 v =>
            match envGet st2.vars name with
            | some (.array arr) =>
              if num < 0 ∨ arr.length ≤ num.toNat then
                (st2, .err ("Index " ++ toString num
                  ++ " out of bounds for array of length " ++ toString arr.length))
              else
                ({ st2 with vars := envInsert st2.vars name (.array (arr.set num.toNat v)) },
                 .ok .nil)
            | other =>
              (st2, .err ("Expected array, got "
                ++ (match other with | some v => debugValue v | none => "None")))
        | _ => (st1, .err ("Expected integer, got " ++ debugValue vindex))
    | .emptyArray size =>
      bindI (interp fuel st size) fun st1 vsize =>
        match vsize with
        | .integer num =>
          if num < 0 then (st1, .panic)
          else (st1, .ok (.array (List.replicate num.toNat .nil)))
        | _ => (st1, .err ("Expected integer, got " ++ debugValue vsize))
termination_by structural fuel _ _ => fuel

/-- The element loop of `Node::Array` evaluation in `Koneko::interpret`. -/
def interpArrayElems : Nat → KState → List Node → List Value → KState × RRes Value
  | 0, st, _, _ => (st, .fuelOut)
  | fuel + 1, st, elems, acc =>
    match elems with
    | [] => (st, .ok (.array acc))
    | e :: rest =>
      bindI (interp fuel st e) fun st1 v =>
        interpArrayElems fuel st1 rest (acc ++ [v])
termination_by structural fuel _ _ _ => fuel

/-- The `Node::BuiltinCommand` dispatch of `Koneko::interpret`
(`src/koneko.rs` lines 798-1278), arm by arm in source order. -/
def interpBuiltin : Nat → KState → String → List Node → KState × RRes Value
  | 0, st, _, _ => (st, .fuelOut)
  | fuel + 1, st, name, args =>
    match name with
    | "refresh" =>
      if args.length ≠ 0 then
        (st, .err ("Expected 0 arguments, got " ++ toString args.length))
      else ({ st with refresh := true }, .ok .nil)
    | "rnd" =>
      match args with
      | [a, b] =>
        bindI (interp fuel st a) fun st1 vmin =>
          liftR st1 vmin.to_float fun _mn =>
            bindI (interp fuel st1 b) fun st2 vmax =>
              liftR st2 vmax.to_float fun _mx =>
                (st2, .externalCall)
      | _ => (st, .err ("Expected 2 arguments, got " ++ toString args.length))
    | "gosub" =>
      match args with
      | [a] =>
        bindI (interp fuel st a) fun st1 v =>
          match v with
          | .integer num =>
            match st1.program.findIdx? (fun x => (x.line_no : Int) == num) with
            | some j =>
              ({ st1 with call_stack := st1.line_no :: st1.call_stack,
                          line_no := j, no_increment_instr_counter := true },
               .ok .nil)
            | none => (st1, .err ("Gosub: Could not find line " ++ toString num))
          | _ =>
            bindI (interp fuel st1 a) fun st2 v2 =>
              (st2, .err ("Expected integer, got " ++ debugValue v2))
      | _ => (st, .err ("Expected 1 argument, got " ++ toString args.length))
    | "delay" =>
      match args with
      | [a] =>
        bindI (interp fuel st a) fun st1 v =>
          match v with
          | .integer _ => (st1, .ok .nil)
          | .float _ => (st1, .ok .nil)
          | _ => (st1, .err ("Expected integer or float, got " ++ debugValue v))
      | _ => (st, .err ("Expected 1 argument, got " ++ toString args.length))
    | "sin" =>
      match args with
      | [a] =>
        bindI (interp fuel st a) fun st1 v =>
          match v with
          | .integer _ => (st1, .externalCall)
          | .float _ => (st1, .externalCall)
          | _ => (st1, .err ("Expected integer or float, got " ++ debugValue v))
      | _ => (st, .err ("Expected 1 argument, got " ++ toString args.length))
    | "cos" =>
      match args with
      | [a] =>
        bindI (interp fuel st a) fun st1 v =>
          match v with
          | .integer _ => (st1, .externalCall)
          | .float _ => (st1, .externalCall)
          | _ => (st1, .err ("Expected integer or float, got " ++ debugValue v))
      | _ => (st, .err ("Expected 1 argument, got " ++ toString args.length))
    | "time" =>
      if args.length ≠ 0 then
        (st, .err ("Expected 0 arguments, got " ++ toString args.length))
      else (st, .externalCall)
    | "end" =>
      if args.length ≠ 0 then
        (st, .err ("Expected 0 arguments, got " ++ toString args.length))
      else ({ st with line_no := st.program.length }, .ok .nil)
    | "print" =>
      match args with
      | [a] =>
        bindI (interp fuel st a) fun st1 v =>
          (kprint st1 (v.to_string true), .ok .nil)
      | _ => (st, .err ("Expected 1 argument, got " ++ toString args.length))
    | "str" =>
      match args with
      | [a] =>
        bindI (interp fuel st a) fun st1 v =>
          (st1, .ok (.string (v.to_string false)))
      | _ => (st, .err ("Expected 1 argument, got " ++ toString args.length))
    | "chr" =>
      match args with
      | [a] =>
        bindI (interp fuel st a) fun st1 v =>
          match v with
          | .integer num =>
            if num < 0 ∨ 255 < num then
              (st1, .err ("Expected integer between 0 and 255, got " ++ toString num))
            else (st1, .ok (.string (Char.ofNat num.toNat).toString))
          | _ => (st1, .err ("Expected integer, got " ++ debugValue v))
      | _ => (st, .err ("Expected 1 argument, got " ++ toString args.length))
    | "int" =>
      match args with
      | [a] =>
        bindI (interp fuel st a) fun st1 v =>
          liftR st1 v.to_integer fun n => (st1, .ok (.integer n))
      | _ => (st, .err ("Expected 1 argument, got " ++ toString args.length))
    | "poly" =>
      if args.length < 2 then
        (st, .err ("Expected at least 2 arguments, got " ++ toString args.length))
      else
        match args.get? 0 with
        | none => (st, .panic)
        | some a0 =>
          bindI (interp fuel st a0) fun st1 v0 =>
            match v0 with
            | .array elements =>
              if elements.length > 2 ∧ args.length = 2 then
                liftR st1 (vec2iList elements) fun pts =>
                  match args.get? 1 with
                  | none => (st1, .panic)
                  | some a1 =>
                    bindI (interp fuel st1 a1) fun st2 cv =>
                      liftR st2 (palette_idx_from_value cv) fun _c =>
                        liftR st2 (drawPolyCheck pts) fun _ => (st2, .ok .nil)
              else interpPolyFall fuel st1 args
            | _ => interpPolyFall fuel st1 args
    | "line" =>
      match args with
      | [a, b, c] =>
        bindI (interp fuel st a) fun st1 v1 =>
          match v1 with
          | .array _ =>
            liftR st1 (array_to_vec2i v1) fun _p1 =>
              bindI (interp fuel st1 b) fun st2 v2 =>
                match v2 with
                | .array _ =>
                  liftR st2 (array_to_vec2i v2) fun _p2 =>
                    bindI (interp fuel st2 c) fun st3 cv =>
                      liftR st3 (palette_idx_from_value cv) fun _c =>
                        (st3, .ok .nil)
                | _ =>
                  bindI (interp fuel st2 b) fun st3 v2b =>
                    (st3, .err ("Expected integer, got " ++ debugValue v2b))
          | _ =>
            bindI (interp fuel st1 a) fun st2 v1b =>
              (st2, .err ("Expected integer, got " ++ debugValue v1b))
      | _ => (st, .err ("Expected 3 arguments, got " ++ toString args.length))
    | "next" =>
      match args with
      | [a] =>
        match a with
        | .varGet vname =>
          match st.for_stack with
          | (origin, endV, stepV) :: restStack =>
            let st0 := { st with for_stack := restStack }
            match envGet st0.vars vname with
            | none => (st0, .panic)
            | some value =>
              let newValR : RRes Value :=
                match value with
                | .integer num =>
                  RRes.bind stepV.to_integer fun s => .ok (.integer (num + s))
                | .float num =>
                  RRes.bind stepV.to_float fun s => .ok (.float (F64.add num s))
                | _ => .err ("Expected integer or float, got " ++ debugValue value)
              liftR st0 newValR fun newVal =>
                let stepSignR : RRes F64 :=
                  match stepV with
                  | .integer n => .ok (F64.ofInt n.sign)
                  | .float q => .ok q.signum
                  | v => .err ("Expected integer or float, got " ++ debugValue v)
                liftR st0 stepSignR fun stepSign =>
                  liftR st0 newVal.comparison_value fun vc =>
                    liftR st0 endV.comparison_value fun ec =>
                      if F64.blt (F64.mul vc stepSign) ec then
                        ({ st0 with vars := envInsert st0.vars vname newVal,
                                    line_no := origin,
                                    for_stack := (origin, endV, stepV) :: restStack },
                         .ok .nil)
                      else
                        ({ st0 with vars := envRemove st0.vars vname }, .ok .nil)
          | [] => (st, .err "Cannot next; for stack is empty!")
        | _ => (st, .err ("Expected variable name, got " ++ debugNode a))
      | _ => (st, .err ("Expected 1 argument, got " ++ toString args.length))
    | "cls" =>
      if args.length > 1 then
        (st, .err ("Expected 0 or 1 arguments, got " ++ toString args.length))
      else
        match args.get? 0 with
        | some arg =>
          bindI (interp fuel st arg) fun st1 v =>
            match v with
            | .integer _ => (st1, .ok .nil)
            | _ =>
              bindI (interp fuel st1 arg) fun st2 v2 =>
                (st2, .err ("Expected integer, got " ++ debugValue v2))
        | none => (st, .ok .nil)
    | "loop" =>
      if args.length ≠ 0 then
        (st, .err ("Expected 0 arguments, got " ++ toString args.length))
      else if st.while_stack.length = 0 then
        (st, .err "Cannot loop; while stack is empty!")
      else
        match st.while_stack.head? with
        | none => (st, .panic)
        | some k =>
          match st.program.get? k with
          | none => (st, .panic)
          | some wline =>
            match wline.node with
            | .builtinCommand wname wargs =>
              if wname ≠ "while" then (st, .panic)
              else
                match wargs with
                | [c] =>
                  match interp fuel st c with
                  | (st1, .ok cond) =>
                    if cond.is_truthy then ({ st1 with line_no := k }, .ok .nil)
                    else (st1, .ok .nil)
                  | (st1, .err _) => (st1, .panic)
                  | (st1, .panic) => (st1, .panic)
                  | (st1, .externalCall) => (st1, .externalCall)
                  | (st1, .fuelOut) => (st1, .fuelOut)
                | _ => (st, .panic)
            | _ => (st, .err ("Expected if statement, got " ++ debugNode wline.node))
    | "while" =>
      match args with
      | [c] =>
        bindI (interp fuel st c) fun st1 cond =>
          if cond.is_truthy then
            ({ st1 with while_stack := st1.line_no :: st1.while_stack }, .ok .nil)
          else (st1, .ok .nil)
      | _ => (st, .err ("Expected 1 argument, got " ++ toString args.length))
    | "goto" =>
      match args with
      | [a] =>
        bindI (interp fuel st a) fun st1 v =>
          match v with
          | .integer num =>
            match st1.program.findIdx? (fun x => (x.line_no : Int) == num) with
            | some j =>
              ({ st1 with line_no := j, no_increment_instr_counter := true }, .ok .nil)
            | none => (st1, .err ("Goto: Could not find line " ++ toString num))
          | _ =>
            bindI (interp fuel st1 a) fun st2 v2 =>
              (st2, .err ("Expected integer, got " ++ debugValue v2))
      | _ => (st, .err ("Expected 1 argument, got " ++ toString args.length))
    | "ret" =>
      if args.length ≠ 0 then
        (st, .err ("Expected 0 arguments, got " ++ toString args.length))
      else
        match st.call_stack with
        | i :: rest => ({ st with call_stack := rest, line_no := i }, .ok .nil)
        | [] => (st, .err "Cannot return; callstack is empty!")
    | "dot" =>
      match args with
      | [ax, ay, ac] =>
        bindI (interp fuel st ax) fun st1 vx =>
          match vx with
          | .integer _ =>
            interpDotRest fuel st1 ay ac
          | .float _ =>
            interpDotRest fuel st1 ay ac
          | _ =>
            bindI (interp fuel st1 ax) fun st2 vxb =>
              (st2, .err ("Expected integer, got " ++ debugValue vxb))
      | _ => (st, .err ("Expected 3 arguments, got " ++ toString args.length))
    | "rad" =>
      match args with
      | [a] =>
        bindI (interp fuel st a) fun st1 v =>
          liftR st1 v.to_float fun _q => (st1, .externalCall)
      | _ => (st, .err ("Expected 1 argument, got " ++ toString args.length))
    | "deg" =>
      match args with
      | [a] =>
        bindI (interp fuel st a) fun st1 v =>
          liftR st1 v.to_float fun _q => (st1, .externalCall)
      | _ => (st, .err ("Expected 1 argument, got " ++ toString args.length))
    | "save" =>
      match args with
      | [a] =>
        bindI (interp fuel st a) fun st1 v =>
          match v with
          | .string _ => (st1, .externalCall)
          | _ =>
            bindI (interp fuel st1 a) fun st2 v2 =>
              (st2, .err ("Expected string, got " ++ debugValue v2))
      | _ => (st, .err ("Expected 1 argument, got " ++ toString args.length))
    | "load" =>
      match args with
      | [a] =>
        bindI (interp fuel st a) fun st1 v =>
          match v with
          | .string _ => (st1, .externalCall)
          | _ =>
            bindI (interp fuel st1 a) fun st2 v2 =>
              (st2, .err ("Expected string, got " ++ debugValue v2))
      | _ => (st, .err ("Expected 1 argument, got " ++ toString args.length))
    | _ => (st, .err ("Unknown builtin command " ++ name))
termination_by structural fuel _ _ _ => fuel

/-- The `y` and color evaluation of the `dot` arm (the pixel write itself is
omitted). -/
def interpDotRest : Nat → KState → Node → Node → KState × RRes Value
  | 0, st, _, _ => (st, .fuelOut)
  | fuel + 1, st, ay, ac =>
    bindI (interp fuel st ay) fun st1 vy =>
      match vy with
      | .integer _ =>
        bindI (interp fuel st1 ac) fun st2 cv =>
          liftR st2 (palette_idx_from_value cv) fun _c => (st2, .ok .nil)
      | .float _ =>
        bindI (interp fuel st1 ac) fun st2 cv =>
          liftR st2 (palette_idx_from_value cv) fun _c => (st2, .ok .nil)
      | _ =>
        bindI (interp fuel st1 ay) fun st2 vyb =>
          (st2, .err ("Expected integer, got " ++ debugValue vyb))
termination_by structural fuel _ _ _ => fuel

/-- The fall-through (non-point-list) path of the `poly` arm: requires at
least 4 arguments, evaluates every argument but the last as a point and the
last as a color (re-evaluating the first argument, as the source loop does). -/
def interpPolyFall : Nat → KState → List Node → KState × RRes Value
  | 0, st, _ => (st, .fuelOut)
  | fuel + 1, st, args =>
    if args.length < 4 then
      (st, .err ("Expected at least 4 arguments, got " ++ toString args.length))
    else
      match interpPtsLoop fuel st (args.take (args.length - 1)) [] with
      | (st2, .ok pts) =>
        match args.getLast? with
        | none => (st2, .panic)
        | some alast =>
          bindI (interp fuel st2 alast) fun st3 cv =>
            liftR st3 (palette_idx_from_value cv) fun _c =>
              liftR st3 (drawPolyCheck pts) fun _ => (st3, .ok .nil)
      | (st2, .err e) => (st2, .err e)
      | (st2, .panic) => (st2, .panic)
      | (st2, .externalCall) => (st2, .externalCall)
      | (st2, .fuelOut) => (st2, .fuelOut)
termination_by structural fuel _ _ => fuel

/-- The per-argument point-evaluation loop of the `poly` fall-through path. -/
def interpPtsLoop : Nat → KState → List Node → List (Int × Int) →
    KState × RRes (List (Int × Int))
  | 0, st, _, _ => (st, .fuelOut)
  | fuel + 1, st, nodes, acc =>
    match nodes with
    | [] => (st, .ok acc)
    | a :: rest =>
      match interp fuel st a with
      | (st1, .ok v) =>
        match array_to_vec2i v with
        | .ok p => interpPtsLoop fuel st1 rest (acc ++ [p])
        | .err e => (st1, .err e)
        | .panic => (st1, .panic)
        | .externalCall => (st1, .externalCall)
        | .fuelOut => (st1, .fuelOut)
      | (st1, .err e) => (st1, .err e)
      | (st1, .panic) => (st1, .panic)
      | (st1, .externalCall) => (st1, .externalCall)
      | (st1, .fuelOut) => (st1, .fuelOut)
termination_by structural fuel _ _ _ => fuel

end

/-- The cursor-advance epilogue of `Koneko::exec_current_line`: advance by one
unless the statement opted out via `no_increment_instr_counter`, then clear
the flag. -/
def advanceCursor (st : KState) : KState :=
  if st.no_increment_instr_counter then
    { st with no_increment_instr_counter := false }
  else
    { st with line_no := st.line_no + 1, no_increment_instr_counter := false }

/-- `Koneko::exec_current_line` (`src/koneko.rs` lines 1350-1361): execute the
node at the cursor, then advance per `advanceCursor`. The advance happens for
both `Ok` and `Err` results (the source computes `res`, advances, then
returns `res`); a panic unwinds with no advance. -/
def exec_current_line (fuel : Nat) (st : KState) : KState × RRes Value :=
  match st.program.get? st.line_no with
  | none => (st, .err "Program buffer empty!")
  | some line =>
    match interp fuel st line.node with
    | (st1, .ok v) => (advanceCursor st1, .ok v)
    | (st1, .err e) => (advanceCursor st1, .err e)
    | (st1, .panic) => (st1, .panic)
    | (st1, .externalCall) => (st1, .externalCall)
    | (st1, .fuelOut) => (st1, .fuelOut)

/-- The run loop of `Koneko::execute_code`: step while no refresh was
requested and the cursor is in range; clear `refresh` on normal exit; a
failing step returns its error immediately (the `?` early return skips the
`refresh` reset). -/
def execute_code : Nat → KState → KState × RRes Unit
  | 0, st => (st, .fuelOut)
  | fuel + 1, st =>
    if st.refresh then ({ st with refresh := false }, .ok ())
    else if st.program.length ≤ st.line_no then ({ st with refresh := false }, .ok ())
    else
      match exec_current_line fuel st with
      | (st1, .ok _) => execute_code fuel st1
      | (st1, .err e) => (st1, .err e)
      | (st1, .panic) => (st1, .panic)
      | (st1, .externalCall) => (st1, .externalCall)
      | (st1, .fuelOut) => (st1, .fuelOut)

/-- A fresh interpreter state (empty store, empty environment and stacks). -/
def initK : KState :=
  { program := [], vars := [], line_no := 0, call_stack := [], while_stack := [],
    for_stack := [], no_increment_instr_counter := false, refresh := false,
    printed_text := [] }

/-- `BASIC::reset_program_state`: clear environment and all three control
stacks, cursor to 0; stored lines are kept. -/
def reset_program_state (st : KState) : KState :=
  { st with vars := [], call_stack := [], while_stack := [], for_stack := [],
            line_no := 0 }

/-- Enter source lines one by one through `add_line` (the line protocol),
keeping the resulting store. -/
def loadProgramLines (srcs : List String) : List Line :=
  srcs.foldl (fun p s => (add_line p s).1) []

/-- Enter the given lines, reset the run state (as switching to the EXEC
screen does via `redraw_screen`) and run the stored program. -/
def runProgram (fuel : Nat) (srcs : List String) : KState × RRes Unit :=
  execute_code fuel
    (reset_program_state { initK with program := loadProgramLines srcs })

/-- Lex a source string and parse it with the parser's `expr` entry point,
requiring all tokens consumed (as `parse_line` does for a statement). -/
def parseExprTop (src : String) : RRes Node :=
  RRes.bind (lex_line src) fun tokens =>
    RRes.bind (pExpr (parseFuel tokens) 0 tokens) fun r =>
      if r.1 ≠ tokens.length then .err "Expected end of line"
      else .ok r.2

/-- Lex, parse (as an expression) and evaluate a source string in a fresh
interpreter state, returning the resulting value outcome. -/
def evalExpr (src : String) : RRes Value :=
  RRes.bind (parseExprTop src) fun node => (interp 1000 initK node).2

/-- An edit of the program store through the line protocol: enter a source
line (`add_line`) or delete by number (`remove_line`). -/
inductive Edit where
  | addE (src : String)
  | removeE (n : Nat)

/-- Apply one edit to the store. -/
def applyEdit (p : List Line) : Edit → List Line
  | .addE src => (add_line p src).1
  | .removeE n => remove_line p n

/-- Apply a sequence of edits starting from the empty store. -/
def applyEdits (edits : List Edit) : List Line :=
  edits.foldl applyEdit []

/-- The store invariant: iterating the program yields strictly ascending
(hence unique) line numbers. -/
def linesStrictSorted (p : List Line) : Prop :=
  List.Pairwise (fun a b => a.line_no < b.line_no) p

/-- Example state for the falsy-`while` step theorem: cursor on a stored
`while 0` line with a body line after it. -/
def exWhileSt : KState :=
  { initK with
    program := [⟨20, .builtinCommand "while" [.integer 0], "20 while 0"⟩,
                ⟨30, .assign "x" (.integer 1), "30 x = 1"⟩] }

/-- Example state for the `loop` step theorem, truthy case: cursor on the
`loop` line, while-stack holding the index of a `while 1` line. -/
def exLoopTruthySt : KState :=
  { initK with
    program := [⟨10, .builtinCommand "while" [.integer 1], "10 while 1"⟩,
                ⟨20, .assign "x" (.integer 0), "20 x = 0"⟩,
                ⟨30, .builtinCommand "loop" [], "30 loop"⟩],
    while_stack := [0], line_no := 2 }

/-- Example state for the `loop` step theorem, falsy case (the owning
`while`'s condition now evaluates falsy). -/
def exLoopFalsySt : KState :=
  { initK with
    program := [⟨10, .builtinCommand "while" [.integer 0], "10 while 0"⟩,
                ⟨20, .assign "x" (.integer 0), "20 x = 0"⟩,
                ⟨30, .builtinCommand "loop" [], "30 loop"⟩],
    while_stack := [0], line_no := 2 }

/-- Example state for the `loop` step theorem, empty while-stack case. -/
def exLoopEmptySt : KState :=
  { initK with
    program := [⟨10, .assign "x" (.integer 0), "10 x = 0"⟩,
                ⟨30, .builtinCommand "loop" [], "30 loop"⟩],
    while_stack := [], line_no := 1 }

/-- Example state for the `gosub`/`ret` step theorem: cursor on a stored
`gosub 40` line whose target is the `ret` line at index 3. -/
def exGosubSt : KState :=
  { initK with
    program := [⟨10, .assign "a" (.integer 1), "10 a = 1"⟩,
                ⟨20, .builtinCommand "gosub" [.integer 40], "20 gosub 40"⟩,
                ⟨30, .assign "b" (.integer 2), "30 b = 2"⟩,
                ⟨40, .builtinCommand "ret" [], "40 ret"⟩],
    line_no := 1 }

/-- The state reached from `exGosubSt` after the `gosub` step: cursor on the
`ret` line, call stack holding the gosub call-site index. -/
def exRetSt : KState :=
  { exGosubSt with line_no := 3, call_stack := [1] }

/-- Build an interpreter state over a given stored program: empty call stack,
flags clear, nothing printed (the shape every state in the concrete runs
below has). -/
def mkSt (p : List Line) (vars : List (String × Value)) (line_no : Nat)
    (ws : List Nat) (fs : List (Nat × Value × Value)) : KState :=
  ⟨p, vars, line_no, [], ws, fs, false, false, []⟩

/-- The stored programs of the concrete runs used by the claims below,
as produced by `loadProgramLines` (proved equal by `rfl` at the use sites). -/

def c2P : List Line :=
  [⟨10, (.assign "s" (.integer 0)), "10 s = 0"⟩,
   ⟨20, (.forN "i" (.integer 1) (.integer 5) (.integer 1)), "20 for i = 1 to 5"⟩,
   ⟨30, (.assign "s" (.binOp .add (.binOp .mul (.varGet "s") (.integer 10)) (.varGet "i"))), "30 s = s * 10 + i"⟩,
   ⟨40, (.builtinCommand "next" [(.varGet "i")]), "40 next i"⟩]

def c3P : List Line :=
  [⟨10, (.assign "s" (.integer 0)), "10 s = 0"⟩,
   ⟨20, (.forN "i" (.integer 5) (.integer 1) (.unOp .sub (.integer 1))), "20 for i = 5 to 1 step -1"⟩,
   ⟨30, (.assign "s" (.binOp .add (.binOp .mul (.varGet "s") (.integer 10)) (.varGet "i"))), "30 s = s * 10 + i"⟩,
   ⟨40, (.builtinCommand "next" [(.varGet "i")]), "40 next i"⟩]

def cwP : List Line :=
  [⟨10, (.assign "x" (.integer 0)), "10 x = 0"⟩,
   ⟨20, (.builtinCommand "while" [(.integer 0)]), "20 while 0"⟩,
   ⟨30, (.assign "x" (.integer 1)), "30 x = 1"⟩,
   ⟨40, (.builtinCommand "loop" []), "40 loop"⟩,
   ⟨50, (.assign "y" (.integer 2)), "50 y = 2"⟩]

def clP : List Line :=
  [⟨10, (.assign "x" (.integer 1)), "10 x = 1"⟩,
   ⟨20, (.builtinCommand "while" [(.varGet "x")]), "20 while x"⟩,
   ⟨30, (.assign "x" (.integer 0)), "30 x = 0"⟩,
   ⟨40, (.builtinCommand "loop" []), "40 loop"⟩,
   ⟨50, (.assign "y" (.integer 5)), "50 y = 5"⟩]

/-! ## Supporting lemmas -/

theorem findIdx?_some_pred {α : Type} (f : α → Bool) :
    ∀ (l : List α) (i : Nat), List.findIdx? f l = some i →
      ∃ x, l.get? i = some x ∧ f x = true := by
  intro l
  induction l with
  | nil => intro i h; simp [List.findIdx?] at h
  | cons a t ih =>
    intro i h
    rw [List.findIdx?_cons] at h
    by_cases hf : f a = true
    · simp [hf] at h
      subst h
      exact ⟨a, by simp, hf⟩
    · simp [hf] at h
      obtain ⟨j, hj, hji⟩ := h
      obtain ⟨x, hx, hfx⟩ := ih j hj
      subst hji
      refine ⟨x, ?_, hfx⟩
      simpa [Nat.add_comm] using hx

theorem map_set_same {α β : Type} (f : α → β) :
    ∀ (l : List α) (i : Nat) (x y : α), l.get? i = some x → f x = f y →
      (l.set i y).map f = l.map f := by
  intro l
  induction l with
  | nil => intro i x y h; simp at h
  | cons a t ih =>
    intro i x y h hf
    cases i with
    | zero =>
      have ha : a = x := Option.some.inj h
      subst ha
      show f y :: t.map f = f a :: t.map f
      rw [← hf]
    | succ n =>
      have h' : t.get? n = some x := h
      show f a :: (t.set n y).map f = f a :: t.map f
      rw [ih n x y h' hf]

theorem linesStrictSorted_iff (p : List Line) :
    linesStrictSorted p ↔ List.Pairwise (· < ·) (p.map Line.line_no) := by
  unfold linesStrictSorted
  exact (List.pairwise_map).symm

theorem nodupKeys_of_strict {p : List Line} (h : linesStrictSorted p) :
    (p.map Line.line_no).Nodup :=
  List.pairwise_map.mpr (h.imp (fun hlt => Nat.ne_of_lt hlt))

theorem strict_of_le_nodup (p : List Line)
    (hle : List.Pairwise lineLe p)
    (hnd : (p.map Line.line_no).Nodup) : linesStrictSorted p := by
  have hne : List.Pairwise (fun a b : Line => a.line_no ≠ b.line_no) p :=
    List.pairwise_map.mp hnd
  exact (hle.and hne).imp
    (fun h => lt_of_le_of_ne h.1 h.2)

theorem inv_remove_line (p : List Line) (n : Nat) (h : linesStrictSorted p) :
    linesStrictSorted (remove_line p n) :=
  List.Pairwise.sublist (List.filter_sublist p) h

theorem inv_add_line (p : List Line) (src : String) (h : linesStrictSorted p) :
    linesStrictSorted (add_line p src).1 := by
  unfold add_line
  cases hlp : lexParse src with
  | ok line =>
    by_cases h0 : line.line_no = 0
    · simpa [h0] using h
    · by_cases hnil : isNilNode line.node
      · simpa [h0, hnil] using inv_remove_line p line.line_no h
      · cases hf : p.findIdx? (fun x => x.line_no == line.line_no) with
        | some idx =>
          simp only [h0, hnil, hf, if_neg, Bool.false_eq_true, not_false_iff]
          obtain ⟨x, hx, hfx⟩ := findIdx?_some_pred _ p idx hf
          have hkey : x.line_no = line.line_no := by simpa using hfx
          rw [linesStrictSorted_iff,
            map_set_same Line.line_no p idx x line hx hkey,
            ← linesStrictSorted_iff]
          exact h
        | none =>
          simp only [h0, hnil, hf, if_neg, Bool.false_eq_true, not_false_iff]
          apply strict_of_le_nodup
          · exact List.sorted_insertionSort lineLe (p ++ [line])
          · have hperm := List.perm_insertionSort lineLe (p ++ [line])
            apply (hperm.map Line.line_no).symm.nodup
            rw [List.map_append]
            rw [List.nodup_append]
            refine ⟨nodupKeys_of_strict h, List.nodup_singleton _, ?_⟩
            intro k hk hk'
            have hk1 : k = line.line_no := by simpa using hk'
            obtain ⟨y, hy, hyk⟩ := List.mem_map.mp hk
            have := (List.findIdx?_eq_none_iff.mp hf) y hy
            simp only [beq_eq_false_iff_ne, ne_eq] at this
            exact this (by rw [hyk, hk1])
  | err e => simpa using h
  | panic => simpa using h
  | externalCall => simpa using h
  | fuelOut => simpa using h

theorem inv_applyEdit (p : List Line) (e : Edit) (h : linesStrictSorted p) :
    linesStrictSorted (applyEdit p e) := by
  cases e with
  | addE src => exact inv_add_line p src h
  | removeE n => exact inv_remove_line p n h

theorem inv_foldl (edits : List Edit) :
    ∀ p : List Line, linesStrictSorted p →
      linesStrictSorted (edits.foldl applyEdit p) := by
  induction edits with
  | nil => intro p h; simpa using h
  | cons e rest ih =>
    intro p h
    exact ih (applyEdit p e) (inv_applyEdit p e h)

/-- C9: for every sequence of `add_line`/`remove_line` edits from the empty
store, iterating the store yields strictly ascending (hence unique) line
numbers; and re-adding a line whose number already exists replaces that
entry in place (`program[idx] = line`), so the stored sequence of line
numbers is unchanged — no reordering, no duplication. -/
theorem C9_store_invariants :
    (∀ edits : List Edit, linesStrictSorted (applyEdits edits))
    ∧ (∀ (p : List Line) (src : String) (line : Line) (idx : Nat),
        lexParse src = .ok line → line.line_no ≠ 0 → isNilNode line.node = false →
        p.findIdx? (fun x => x.line_no == line.line_no) = some idx →
        (add_line p src).1 = p.set idx line
          ∧ ((add_line p src).1).map Line.line_no = p.map Line.line_no) := by
  constructor
  · intro edits
    exact inv_foldl edits [] (by simp [linesStrictSorted])
  · intro p src line idx hlp h0 hnil hf
    have hstore : (add_line p src).1 = p.set idx line := by
      unfold add_line
      rw [hlp]
      simp [h0, hnil, hf]
    refine ⟨hstore, ?_⟩
    rw [hstore]
    obtain ⟨x, hx, hfx⟩ := findIdx?_some_pred _ p idx hf
    have hkey : x.line_no = line.line_no := by simpa using hfx
    exact map_set_same Line.line_no p idx x line hx hkey

/-- Witness for C9: a concrete edit sequence keeps the store strictly
ascending, and re-entering line 10 replaces the first entry in place. -/
theorem C9_store_invariants_witness :
    linesStrictSorted (applyEdits
      [Edit.addE "10 x = 1", Edit.addE "20 y = 2", Edit.addE "10 x = 3",
       Edit.removeE 20])
    ∧ (add_line (loadProgramLines ["10 x = 1", "20 y = 2"]) "10 x = 3").1
        = (loadProgramLines ["10 x = 1", "20 y = 2"]).set 0
            ⟨10, .assign "x" (.integer 3), "10 x = 3"⟩ := by
  constructor
  · exact C9_store_invariants.1 _
  · exact (C9_store_invariants.2 (loadProgramLines ["10 x = 1", "20 y = 2"])
      "10 x = 3" ⟨10, .assign "x" (.integer 3), "10 x = 3"⟩ 0 (by rfl)
      (by decide) (by rfl) (by rfl)).1


theorem execute_code_step (fuel : Nat) (st st' F : KState) (v : Value) (r : RRes Unit)
    (hr : st.refresh = false)
    (hlen : st.line_no < st.program.length)
    (hstep : exec_current_line fuel st = (st', .ok v))
    (hrest : execute_code fuel st' = (F, r)) :
    execute_code (fuel + 1) st = (F, r) := by
  rw [execute_code, hr, hstep]
  simp only [Bool.false_eq_true, if_false, if_neg (Nat.not_le.mpr hlen)]
  exact hrest

theorem execute_code_stepErr (fuel : Nat) (st st' : KState) (e : String)
    (hr : st.refresh = false)
    (hlen : st.line_no < st.program.length)
    (hstep : exec_current_line fuel st = (st', .err e)) :
    execute_code (fuel + 1) st = (st', .err e) := by
  rw [execute_code, hr, hstep]
  simp only [Bool.false_eq_true, if_false, if_neg (Nat.not_le.mpr hlen)]

theorem execute_code_done (fuel : Nat) (st : KState)
    (hr : st.refresh = false)
    (hlen : st.program.length ≤ st.line_no) :
    execute_code (fuel + 1) st = (st, .ok ()) := by
  rw [execute_code, hr]
  simp only [Bool.false_eq_true, if_false, if_pos hlen]
  cases st with
  | mk p v ln cs ws fs ni rf pt =>
    simp only at hr
    rw [hr]

theorem runProgram_eq (fuel : Nat) (srcs : List String) (P : List Line)
    (h : loadProgramLines srcs = P) :
    runProgram fuel srcs = execute_code fuel (mkSt P [] 0 [] []) := by
  unfold runProgram
  rw [h]
  rfl

/-! ## Concrete run step lemmas (generated from the embedding itself) -/

theorem c2e0 : exec_current_line 39 (mkSt c2P [] 0 [] [])
    = ((mkSt c2P [("s", (.integer 0))] 1 [] []), (.ok (.integer 0))) := by rfl

theorem c2e1 : exec_current_line 38 (mkSt c2P [("s", (.integer 0))] 1 [] [])
    = ((mkSt c2P [("s", (.integer 0)), ("i", (.integer 1))] 2 [] [(1, (.integer 5), (.integer 1))]), (.ok .nil)) := by rfl

theorem c2e2 : exec_current_line 37 (mkSt c2P [("s", (.integer 0)), ("i", (.integer 1))] 2 [] [(1, (.integer 5), (.integer 1))])
    = ((mkSt c2P [("s", (.integer 1)), ("i", (.integer 1))] 3 [] [(1, (.integer 5), (.integer 1))]), (.ok (.integer 1))) := by rfl

theorem c2e3 : exec_current_line 36 (mkSt c2P [("s", (.integer 1)), ("i", (.integer 1))] 3 [] [(1, (.integer 5), (.integer 1))])
    = ((mkSt c2P [("s", (.integer 1)), ("i", (.integer 2))] 2 [] [(1, (.integer 5), (.integer 1))]), (.ok .nil)) := by rfl

theorem c2e4 : exec_current_line 35 (mkSt c2P [("s", (.integer 1)), ("i", (.integer 2))] 2 [] [(1, (.integer 5), (.integer 1))])
    = ((mkSt c2P [("s", (.integer 12)), ("i", (.integer 2))] 3 [] [(1, (.integer 5), (.integer 1))]), (.ok (.integer 12))) := by rfl

theorem c2e5 : exec_current_line 34 (mkSt c2P [("s", (.integer 12)), ("i", (.integer 2))] 3 [] [(1, (.integer 5), (.integer 1))])
    = ((mkSt c2P [("s", (.integer 12)), ("i", (.integer 3))] 2 [] [(1, (.integer 5), (.integer 1))]), (.ok .nil)) := by rfl

theorem c2e6 : exec_current_line 33 (mkSt c2P [("s", (.integer 12)), ("i", (.integer 3))] 2 [] [(1, (.integer 5), (.integer 1))])
    = ((mkSt c2P [("s", (.integer 123)), ("i", (.integer 3))] 3 [] [(1, (.integer 5), (.integer 1))]), (.ok (.integer 123))) := by rfl

theorem c2e7 : exec_current_line 32 (mkSt c2P [("s", (.integer 123)), ("i", (.integer 3))] 3 [] [(1, (.integer 5), (.integer 1))])
    = ((mkSt c2P [("s", (.integer 123)), ("i", (.integer 4))] 2 [] [(1, (.integer 5), (.integer 1))]), (.ok .nil)) := by rfl

theorem c2e8 : exec_current_line 31 (mkSt c2P [("s", (.integer 123)), ("i", (.integer 4))] 2 [] [(1, (.integer 5), (.integer 1))])
    = ((mkSt c2P [("s", (.integer 1234)), ("i", (.integer 4))] 3 [] [(1, (.integer 5), (.integer 1))]), (.ok (.integer 1234))) := by rfl

theorem c2e9 : exec_current_line 30 (mkSt c2P [("s", (.integer 1234)), ("i", (.integer 4))] 3 [] [(1, (.integer 5), (.integer 1))])
    = ((mkSt c2P [("s", (.integer 1234))] 4 [] []), (.ok .nil)) := by rfl

theorem c2r10 : execute_code 30 (mkSt c2P [("s", (.integer 1234))] 4 [] [])
    = ((mkSt c2P [("s", (.integer 1234))] 4 [] []), .ok ()) :=
  execute_code_done 29 _ rfl (by decide)

theorem c2r9 : execute_code 31 (mkSt c2P [("s", (.integer 1234)), ("i", (.integer 4))] 3 [] [(1, (.integer 5), (.integer 1))])
    = ((mkSt c2P [("s", (.integer 1234))] 4 [] []), .ok ()) :=
  execute_code_step 30 _ (mkSt c2P [("s", (.integer 1234))] 4 [] []) _ .nil _ rfl (by decide) c2e9 c2r10

theorem c2r8 : execute_code 32 (mkSt c2P [("s", (.integer 123)), ("i", (.integer 4))] 2 [] [(1, (.integer 5), (.integer 1))])
    = ((mkSt c2P [("s", (.integer 1234))] 4 [] []), .ok ()) :=
  execute_code_step 31 _ (mkSt c2P [("s", (.integer 1234)), ("i", (.integer 4))] 3 [] [(1, (.integer 5), (.integer 1))]) _ (.integer 1234) _ rfl (by decide) c2e8 c2r9

theorem c2r7 : execute_code 33 (mkSt c2P [("s", (.integer 123)), ("i", (.integer 3))] 3 [] [(1, (.integer 5), (.integer 1))])
    = ((mkSt c2P [("s", (.integer 1234))] 4 [] []), .ok ()) :=
  execute_code_step 32 _ (mkSt c2P [("s", (.integer 123)), ("i", (.integer 4))] 2 [] [(1, (.integer 5), (.integer 1))]) _ .nil _ rfl (by decide) c2e7 c2r8

theorem c2r6 : execute_code 34 (mkSt c2P [("s", (.integer 12)), ("i", (.integer 3))] 2 [] [(1, (.integer 5), (.integer 1))])
    = ((mkSt c2P [("s", (.integer 1234))] 4 [] []), .ok ()) :=
  execute_code_step 33 _ (mkSt c2P [("s", (.integer 123)), ("i", (.integer 3))] 3 [] [(1, (.integer 5), (.integer 1))]) _ (.integer 123) _ rfl (by decide) c2e6 c2r7

theorem c2r5 : execute_code 35 (mkSt c2P [("s", (.integer 12)), ("i", (.integer 2))] 3 [] [(1, (.integer 5), (.integer 1))])
    = ((mkSt c2P [("s", (.integer 1234))] 4 [] []), .ok ()) :=
  execute_code_step 34 _ (mkSt c2P [("s", (.integer 12)), ("i", (.integer 3))] 2 [] [(1, (.integer 5), (.integer 1))]) _ .nil _ rfl (by decide) c2e5 c2r6

theorem c2r4 : execute_code 36 (mkSt c2P [("s", (.integer 1)), ("i", (.integer 2))] 2 [] [(1, (.integer 5), (.integer 1))])
    = ((mkSt c2P [("s", (.integer 1234))] 4 [] []), .ok ()) :=
  execute_code_step 35 _ (mkSt c2P [("s", (.integer 12)), ("i", (.integer 2))] 3 [] [(1, (.integer 5), (.integer 1))]) _ (.integer 12) _ rfl (by decide) c2e4 c2r5

theorem c2r3 : execute_code 37 (mkSt c2P [("s", (.integer 1)), ("i", (.integer 1))] 3 [] [(1, (.integer 5), (.integer 1))])
    = ((mkSt c2P [("s", (.integer 1234))] 4 [] []), .ok ()) :=
  execute_code_step 36 _ (mkSt c2P [("s", (.integer 1)), ("i", (.integer 2))] 2 [] [(1, (.integer 5), (.integer 1))]) _ .nil _ rfl (by decide) c2e3 c2r4

theorem c2r2 : execute_code 38 (mkSt c2P [("s", (.integer 0)), ("i", (.integer 1))] 2 [] [(1, (.integer 5), (.integer 1))])
    = ((mkSt c2P [("s", (.integer 1234))] 4 [] []), .ok ()) :=
  execute_code_step 37 _ (mkSt c2P [("s", (.integer 1)), ("i", (.integer 1))] 3 [] [(1, (.integer 5), (.integer 1))]) _ (.integer 1) _ rfl (by decide) c2e2 c2r3

theorem c2r1 : execute_code 39 (mkSt c2P [("s", (.integer 0))] 1 [] [])
    = ((mkSt c2P [("s", (.integer 1234))] 4 [] []), .ok ()) :=
  execute_code_step 38 _ (mkSt c2P [("s", (.integer 0)), ("i", (.integer 1))] 2 [] [(1, (.integer 5), (.integer 1))]) _ .nil _ rfl (by decide) c2e1 c2r2

theorem c2r0 : execute_code 40 (mkSt c2P [] 0 [] [])
    = ((mkSt c2P [("s", (.integer 1234))] 4 [] []), .ok ()) :=
  execute_code_step 39 _ (mkSt c2P [("s", (.integer 0))] 1 [] []) _ (.integer 0) _ rfl (by decide) c2e0 c2r1

theorem c3e0 : exec_current_line 43 (mkSt c3P [] 0 [] [])
    = ((mkSt c3P [("s", (.integer 0))] 1 [] []), (.ok (.integer 0))) := by rfl

theorem c3e1 : exec_current_line 42 (mkSt c3P [("s", (.integer 0))] 1 [] [])
    = ((mkSt c3P [("s", (.integer 0)), ("i", (.integer 5))] 2 [] [(1, (.integer 1), (.integer (-1)))]), (.ok .nil)) := by rfl

theorem c3e2 : exec_current_line 41 (mkSt c3P [("s", (.integer 0)), ("i", (.integer 5))] 2 [] [(1, (.integer 1), (.integer (-1)))])
    = ((mkSt c3P [("s", (.integer 5)), ("i", (.integer 5))] 3 [] [(1, (.integer 1), (.integer (-1)))]), (.ok (.integer 5))) := by rfl

theorem c3e3 : exec_current_line 40 (mkSt c3P [("s", (.integer 5)), ("i", (.integer 5))] 3 [] [(1, (.integer 1), (.integer (-1)))])
    = ((mkSt c3P [("s", (.integer 5)), ("i", (.integer 4))] 2 [] [(1, (.integer 1), (.integer (-1)))]), (.ok .nil)) := by rfl

theorem c3e4 : exec_current_line 39 (mkSt c3P [("s", (.integer 5)), ("i", (.integer 4))] 2 [] [(1, (.integer 1), (.integer (-1)))])
    = ((mkSt c3P [("s", (.integer 54)), ("i", (.integer 4))] 3 [] [(1, (.integer 1), (.integer (-1)))]), (.ok (.integer 54))) := by rfl

theorem c3e5 : exec_current_line 38 (mkSt c3P [("s", (.integer 54)), ("i", (.integer 4))] 3 [] [(1, (.integer 1), (.integer (-1)))])
    = ((mkSt c3P [("s", (.integer 54)), ("i", (.integer 3))] 2 [] [(1, (.integer 1), (.integer (-1)))]), (.ok .nil)) := by rfl

theorem c3e6 : exec_current_line 37 (mkSt c3P [("s", (.integer 54)), ("i", (.integer 3))] 2 [] [(1, (.integer 1), (.integer (-1)))])
    = ((mkSt c3P [("s", (.integer 543)), ("i", (.integer 3))] 3 [] [(1, (.integer 1), (.integer (-1)))]), (.ok (.integer 543))) := by rfl

theorem c3e7 : exec_current_line 36 (mkSt c3P [("s", (.integer 543)), ("i", (.integer 3))] 3 [] [(1, (.integer 1), (.integer (-1)))])
    = ((mkSt c3P [("s", (.integer 543)), ("i", (.integer 2))] 2 [] [(1, (.integer 1), (.integer (-1)))]), (.ok .nil)) := by rfl

theorem c3e8 : exec_current_line 35 (mkSt c3P [("s", (.integer 543)), ("i", (.integer 2))] 2 [] [(1, (.integer 1), (.integer (-1)))])
    = ((mkSt c3P [("s", (.integer 5432)), ("i", (.integer 2))] 3 [] [(1, (.integer 1), (.integer (-1)))]), (.ok (.integer 5432))) := by rfl

theorem c3e9 : exec_current_line 34 (mkSt c3P [("s", (.integer 5432)), ("i", (.integer 2))] 3 [] [(1, (.integer 1), (.integer (-1)))])
    = ((mkSt c3P [("s", (.integer 5432)), ("i", (.integer 1))] 2 [] [(1, (.integer 1), (.integer (-1)))]), (.ok .nil)) := by rfl

theorem c3e10 : exec_current_line 33 (mkSt c3P [("s", (.integer 5432)), ("i", (.integer 1))] 2 [] [(1, (.integer 1), (.integer (-1)))])
    = ((mkSt c3P [("s", (.integer 54321)), ("i", (.integer 1))] 3 [] [(1, (.integer 1), (.integer (-1)))]), (.ok (.integer 54321))) := by rfl

theorem c3e11 : exec_current_line 32 (mkSt c3P [("s", (.integer 54321)), ("i", (.integer 1))] 3 [] [(1, (.integer 1), (.integer (-1)))])
    = ((mkSt c3P [("s", (.integer 54321)), ("i", (.integer 0))] 2 [] [(1, (.integer 1), (.integer (-1)))]), (.ok .nil)) := by rfl

theorem c3e12 : exec_current_line 31 (mkSt c3P [("s", (.integer 54321)), ("i", (.integer 0))] 2 [] [(1, (.integer 1), (.integer (-1)))])
    = ((mkSt c3P [("s", (.integer 543210)), ("i", (.integer 0))] 3 [] [(1, (.integer 1), (.integer (-1)))]), (.ok (.integer 543210))) := by rfl

theorem c3e13 : exec_current_line 30 (mkSt c3P [("s", (.integer 543210)), ("i", (.integer 0))] 3 [] [(1, (.integer 1), (.integer (-1)))])
    = ((mkSt c3P [("s", (.integer 543210))] 4 [] []), (.ok .nil)) := by rfl

theorem c3r14 : execute_code 30 (mkSt c3P [("s", (.integer 543210))] 4 [] [])
    = ((mkSt c3P [("s", (.integer 543210))] 4 [] []), .ok ()) :=
  execute_code_done 29 _ rfl (by decide)

theorem c3r13 : execute_code 31 (mkSt c3P [("s", (.integer 543210)), ("i", (.integer 0))] 3 [] [(1, (.integer 1), (.integer (-1)))])
    = ((mkSt c3P [("s", (.integer 543210))] 4 [] []), .ok ()) :=
  execute_code_step 30 _ (mkSt c3P [("s", (.integer 543210))] 4 [] []) _ .nil _ rfl (by decide) c3e13 c3r14

theorem c3r12 : execute_code 32 (mkSt c3P [("s", (.integer 54321)), ("i", (.integer 0))] 2 [] [(1, (.integer 1), (.integer (-1)))])
    = ((mkSt c3P [("s", (.integer 543210))] 4 [] []), .ok ()) :=
  execute_code_step 31 _ (mkSt c3P [("s", (.integer 543210)), ("i", (.integer 0))] 3 [] [(1, (.integer 1), (.integer (-1)))]) _ (.integer 543210) _ rfl (by decide) c3e12 c3r13

theorem c3r11 : execute_code 33 (mkSt c3P [("s", (.integer 54321)), ("i", (.integer 1))] 3 [] [(1, (.integer 1), (.integer (-1)))])
    = ((mkSt c3P [("s", (.integer 543210))] 4 [] []), .ok ()) :=
  execute_code_step 32 _ (mkSt c3P [("s", (.integer 54321)), ("i", (.integer 0))] 2 [] [(1, (.integer 1), (.integer (-1)))]) _ .nil _ rfl (by decide) c3e11 c3r12

theorem c3r10 : execute_code 34 (mkSt c3P [("s", (.integer 5432)), ("i", (.integer 1))] 2 [] [(1, (.integer 1), (.integer (-1)))])
    = ((mkSt c3P [("s", (.integer 543210))] 4 [] []), .ok ()) :=
  execute_code_step 33 _ (mkSt c3P [("s", (.integer 54321)), ("i", (.integer 1))] 3 [] [(1, (.integer 1), (.integer (-1)))]) _ (.integer 54321) _ rfl (by decide) c3e10 c3r11

theorem c3r9 : execute_code 35 (mkSt c3P [("s", (.integer 5432)), ("i", (.integer 2))] 3 [] [(1, (.integer 1), (.integer (-1)))])
    = ((mkSt c3P [("s", (.integer 543210))] 4 [] []), .ok ()) :=
  execute_code_step 34 _ (mkSt c3P [("s", (.integer 5432)), ("i", (.integer 1))] 2 [] [(1, (.integer 1), (.integer (-1)))]) _ .nil _ rfl (by decide) c3e9 c3r10

theorem c3r8 : execute_code 36 (mkSt c3P [("s", (.integer 543)), ("i", (.integer 2))] 2 [] [(1, (.integer 1), (.integer (-1)))])
    = ((mkSt c3P [("s", (.integer 543210))] 4 [] []), .ok ()) :=
  execute_code_step 35 _ (mkSt c3P [("s", (.integer 5432)), ("i", (.integer 2))] 3 [] [(1, (.integer 1), (.integer (-1)))]) _ (.integer 5432) _ rfl (by decide) c3e8 c3r9

theorem c3r7 : execute_code 37 (mkSt c3P [("s", (.integer 543)), ("i", (.integer 3))] 3 [] [(1, (.integer 1), (.integer (-1)))])
    = ((mkSt c3P [("s", (.integer 543210))] 4 [] []), .ok ()) :=
  execute_code_step 36 _ (mkSt c3P [("s", (.integer 543)), ("i", (.integer 2))] 2 [] [(1, (.integer 1), (.integer (-1)))]) _ .nil _ rfl (by decide) c3e7 c3r8

theorem c3r6 : execute_code 38 (mkSt c3P [("s", (.integer 54)), ("i", (.integer 3))] 2 [] [(1, (.integer 1), (.integer (-1)))])
    = ((mkSt c3P [("s", (.integer 543210))] 4 [] []), .ok ()) :=
  execute_code_step 37 _ (mkSt c3P [("s", (.integer 543)), ("i", (.integer 3))] 3 [] [(1, (.integer 1), (.integer (-1)))]) _ (.integer 543) _ rfl (by decide) c3e6 c3r7

theorem c3r5 : execute_code 39 (mkSt c3P [("s", (.integer 54)), ("i", (.integer 4))] 3 [] [(1, (.integer 1), (.integer (-1)))])
    = ((mkSt c3P [("s", (.integer 543210))] 4 [] []), .ok ()) :=
  execute_code_step 38 _ (mkSt c3P [("s", (.integer 54)), ("i", (.integer 3))] 2 [] [(1, (.integer 1), (.integer (-1)))]) _ .nil _ rfl (by decide) c3e5 c3r6

theorem c3r4 : execute_code 40 (mkSt c3P [("s", (.integer 5)), ("i", (.integer 4))] 2 [] [(1, (.integer 1), (.integer (-1)))])
    = ((mkSt c3P [("s", (.integer 543210))] 4 [] []), .ok ()) :=
  execute_code_step 39 _ (mkSt c3P [("s", (.integer 54)), ("i", (.integer 4))] 3 [] [(1, (.integer 1), (.integer (-1)))]) _ (.integer 54) _ rfl (by decide) c3e4 c3r5

theorem c3r3 : execute_code 41 (mkSt c3P [("s", (.integer 5)), ("i", (.integer 5))] 3 [] [(1, (.integer 1), (.integer (-1)))])
    = ((mkSt c3P [("s", (.integer 543210))] 4 [] []), .ok ()) :=
  execute_code_step 40 _ (mkSt c3P [("s", (.integer 5)), ("i", (.integer 4))] 2 [] [(1, (.integer 1), (.integer (-1)))]) _ .nil _ rfl (by decide) c3e3 c3r4

theorem c3r2 : execute_code 42 (mkSt c3P [("s", (.integer 0)), ("i", (.integer 5))] 2 [] [(1, (.integer 1), (.integer (-1)))])
    = ((mkSt c3P [("s", (.integer 543210))] 4 [] []), .ok ()) :=
  execute_code_step 41 _ (mkSt c3P [("s", (.integer 5)), ("i", (.integer 5))] 3 [] [(1, (.integer 1), (.integer (-1)))]) _ (.integer 5) _ rfl (by decide) c3e2 c3r3

theorem c3r1 : execute_code 43 (mkSt c3P [("s", (.integer 0))] 1 [] [])
    = ((mkSt c3P [("s", (.integer 543210))] 4 [] []), .ok ()) :=
  execute_code_step 42 _ (mkSt c3P [("s", (.integer 0)), ("i", (.integer 5))] 2 [] [(1, (.integer 1), (.integer (-1)))]) _ .nil _ rfl (by decide) c3e1 c3r2

theorem c3r0 : execute_code 44 (mkSt c3P [] 0 [] [])
    = ((mkSt c3P [("s", (.integer 543210))] 4 [] []), .ok ()) :=
  execute_code_step 43 _ (mkSt c3P [("s", (.integer 0))] 1 [] []) _ (.integer 0) _ rfl (by decide) c3e0 c3r1

theorem cwe0 : exec_current_line 39 (mkSt cwP [] 0 [] [])
    = ((mkSt cwP [("x", (.integer 0))] 1 [] []), (.ok (.integer 0))) := by rfl

theorem cwe1 : exec_current_line 38 (mkSt cwP [("x", (.integer 0))] 1 [] [])
    = ((mkSt cwP [("x", (.integer 0))] 2 [] []), (.ok .nil)) := by rfl

theorem cwe2 : exec_current_line 37 (mkSt cwP [("x", (.integer 0))] 2 [] [])
    = ((mkSt cwP [("x", (.integer 1))] 3 [] []), (.ok (.integer 1))) := by rfl

theorem cwe3 : exec_current_line 36 (mkSt cwP [("x", (.integer 1))] 3 [] [])
    = ((mkSt cwP [("x", (.integer 1))] 4 [] []), (.err "Cannot loop; while stack is empty!")) := by rfl


theorem cwr3 : execute_code 37 (mkSt cwP [("x", (.integer 1))] 3 [] [])
    = ((mkSt cwP [("x", (.integer 1))] 4 [] []), (.err "Cannot loop; while stack is empty!")) :=
  execute_code_stepErr 36 _ _ _ rfl (by decide) cwe3

theorem cwr2 : execute_code 38 (mkSt cwP [("x", (.integer 0))] 2 [] [])
    = ((mkSt cwP [("x", (.integer 1))] 4 [] []), (.err "Cannot loop; while stack is empty!")) :=
  execute_code_step 37 _ (mkSt cwP [("x", (.integer 1))] 3 [] []) _ (.integer 1) _ rfl (by decide) cwe2 cwr3

theorem cwr1 : execute_code 39 (mkSt cwP [("x", (.integer 0))] 1 [] [])
    = ((mkSt cwP [("x", (.integer 1))] 4 [] []), (.err "Cannot loop; while stack is empty!")) :=
  execute_code_step 38 _ (mkSt cwP [("x", (.integer 0))] 2 [] []) _ .nil _ rfl (by decide) cwe1 cwr2

theorem cwr0 : execute_code 40 (mkSt cwP [] 0 [] [])
    = ((mkSt cwP [("x", (.integer 1))] 4 [] []), (.err "Cannot loop; while stack is empty!")) :=
  execute_code_step 39 _ (mkSt cwP [("x", (.integer 0))] 1 [] []) _ (.integer 0) _ rfl (by decide) cwe0 cwr1

theorem cle0 : exec_current_line 39 (mkSt clP [] 0 [] [])
    = ((mkSt clP [("x", (.integer 1))] 1 [] []), (.ok (.integer 1))) := by rfl

theorem cle1 : exec_current_line 38 (mkSt clP [("x", (.integer 1))] 1 [] [])
    = ((mkSt clP [("x", (.integer 1))] 2 [1] []), (.ok .nil)) := by rfl

theorem cle2 : exec_current_line 37 (mkSt clP [("x", (.integer 1))] 2 [1] [])
    = ((mkSt clP [("x", (.integer 0))] 3 [1] []), (.ok (.integer 0))) := by rfl

theorem cle3 : exec_current_line 36 (mkSt clP [("x", (.integer 0))] 3 [1] [])
    = ((mkSt clP [("x", (.integer 0))] 4 [1] []), (.ok .nil)) := by rfl

theorem cle4 : exec_current_line 35 (mkSt clP [("x", (.integer 0))] 4 [1] [])
    = ((mkSt clP [("x", (.integer 0)), ("y", (.integer 5))] 5 [1] []), (.ok (.integer 5))) := by rfl

theorem clr5 : execute_code 35 (mkSt clP [("x", (.integer 0)), ("y", (.integer 5))] 5 [1] [])
    = ((mkSt clP [("x", (.integer 0)), ("y", (.integer 5))] 5 [1] []), .ok ()) :=
  execute_code_done 34 _ rfl (by decide)

theorem clr4 : execute_code 36 (mkSt clP [("x", (.integer 0))] 4 [1] [])
    = ((mkSt clP [("x", (.integer 0)), ("y", (.integer 5))] 5 [1] []), .ok ()) :=
  execute_code_step 35 _ (mkSt clP [("x", (.integer 0)), ("y", (.integer 5))] 5 [1] []) _ (.integer 5) _ rfl (by decide) cle4 clr5

theorem clr3 : execute_code 37 (mkSt clP [("x", (.integer 0))] 3 [1] [])
    = ((mkSt clP [("x", (.integer 0)), ("y", (.integer 5))] 5 [1] []), .ok ()) :=
  execute_code_step 36 _ (mkSt clP [("x", (.integer 0))] 4 [1] []) _ .nil _ rfl (by decide) cle3 clr4

theorem clr2 : execute_code 38 (mkSt clP [("x", (.integer 1))] 2 [1] [])
    = ((mkSt clP [("x", (.integer 0)), ("y", (.integer 5))] 5 [1] []), .ok ()) :=
  execute_code_step 37 _ (mkSt clP [("x", (.integer 0))] 3 [1] []) _ (.integer 0) _ rfl (by decide) cle2 clr3

theorem clr1 : execute_code 39 (mkSt clP [("x", (.integer 1))] 1 [] [])
    = ((mkSt clP [("x", (.integer 0)), ("y", (.integer 5))] 5 [1] []), .ok ()) :=
  execute_code_step 38 _ (mkSt clP [("x", (.integer 1))] 2 [1] []) _ .nil _ rfl (by decide) cle1 clr2

theorem clr0 : execute_code 40 (mkSt clP [] 0 [] [])
    = ((mkSt clP [("x", (.integer 0)), ("y", (.integer 5))] 5 [1] []), .ok ()) :=
  execute_code_step 39 _ (mkSt clP [("x", (.integer 1))] 1 [] []) _ (.integer 1) _ rfl (by decide) cle0 clr1

theorem c2Run : runProgram 40 ["10 s = 0", "20 for i = 1 to 5", "30 s = s * 10 + i", "40 next i"]
    = (mkSt c2P [("s", (.integer 1234))] 4 [] [], .ok ()) := by
  rw [runProgram_eq 40 _ c2P (by rfl)]
  exact c2r0

theorem c3Run : runProgram 44 ["10 s = 0", "20 for i = 5 to 1 step -1", "30 s = s * 10 + i", "40 next i"]
    = (mkSt c3P [("s", (.integer 543210))] 4 [] [], .ok ()) := by
  rw [runProgram_eq 44 _ c3P (by rfl)]
  exact c3r0

theorem cwRun : runProgram 40 ["10 x = 0", "20 while 0", "30 x = 1", "40 loop", "50 y = 2"]
    = (mkSt cwP [("x", (.integer 1))] 4 [] [], .err "Cannot loop; while stack is empty!") := by
  rw [runProgram_eq 40 _ cwP (by rfl)]
  exact cwr0

theorem clRun : runProgram 40 ["10 x = 1", "20 while x", "30 x = 0", "40 loop", "50 y = 5"]
    = (mkSt clP [("x", (.integer 0)), ("y", (.integer 5))] 5 [1] [], .ok ()) := by
  rw [runProgram_eq 40 _ clP (by rfl)]
  exact clr0

theorem exec_current_line_ok (fuel : Nat) (st st1 : KState) (ln : Line) (v : Value)
    (hline : st.program.get? st.line_no = some ln)
    (hinterp : interp fuel st ln.node = (st1, .ok v)) :
    exec_current_line fuel st = (advanceCursor st1, .ok v) := by
  unfold exec_current_line
  rw [hline]
  show (match interp fuel st ln.node with
    | (st1, RRes.ok v) => (advanceCursor st1, RRes.ok v)
    | (st1, RRes.err e) => (advanceCursor st1, RRes.err e)
    | (st1, RRes.panic) => (st1, RRes.panic)
    | (st1, RRes.externalCall) => (st1, RRes.externalCall)
    | (st1, RRes.fuelOut) => (st1, RRes.fuelOut)) = _
  rw [hinterp]

theorem exec_current_line_err (fuel : Nat) (st st1 : KState) (ln : Line) (e : String)
    (hline : st.program.get? st.line_no = some ln)
    (hinterp : interp fuel st ln.node = (st1, .err e)) :
    exec_current_line fuel st = (advanceCursor st1, .err e) := by
  unfold exec_current_line
  rw [hline]
  show (match interp fuel st ln.node with
    | (st1, RRes.ok v) => (advanceCursor st1, RRes.ok v)
    | (st1, RRes.err e) => (advanceCursor st1, RRes.err e)
    | (st1, RRes.panic) => (st1, RRes.panic)
    | (st1, RRes.externalCall) => (st1, RRes.externalCall)
    | (st1, RRes.fuelOut) => (st1, RRes.fuelOut)) = _
  rw [hinterp]

theorem advanceCursor_noflag (st : KState)
    (h : st.no_increment_instr_counter = false) :
    advanceCursor st
      = { st with line_no := st.line_no + 1, no_increment_instr_counter := false } := by
  unfold advanceCursor
  rw [h]
  show ({ st with line_no := st.line_no + 1, no_increment_instr_counter := false }) = _
  rfl

theorem advanceCursor_flag (st : KState)
    (h : st.no_increment_instr_counter = true) :
    advanceCursor st = { st with no_increment_instr_counter := false } := by
  unfold advanceCursor
  rw [h]
  show ({ st with no_increment_instr_counter := false }) = _
  rfl

theorem interp_while_step (fuel : Nat) (st : KState) (cond : Node) (v : Value)
    (hcond : interp fuel st cond = (st, .ok v)) :
    interp (fuel + 2) st (.builtinCommand "while" [cond])
      = (if v.is_truthy then
           ({ st with while_stack := st.line_no :: st.while_stack }, .ok .nil)
         else (st, .ok .nil)) := by
  show bindI (interp fuel st cond) (fun st1 c =>
      if c.is_truthy then
        ({ st1 with while_stack := st1.line_no :: st1.while_stack }, .ok .nil)
      else (st1, .ok .nil)) = _
  rw [hcond]
  rfl

theorem interp_loop_empty (fuel : Nat) (st : KState)
    (hws : st.while_stack = []) :
    interp (fuel + 2) st (.builtinCommand "loop" [])
      = (st, .err "Cannot loop; while stack is empty!") := by
  show (if st.while_stack.length = 0 then
      (st, RRes.err "Cannot loop; while stack is empty!")
    else
      match st.while_stack.head? with
      | none => (st, RRes.panic)
      | some k =>
        match st.program.get? k with
        | none => (st, RRes.panic)
        | some wline =>
          match wline.node with
          | .builtinCommand wname wargs =>
            if wname ≠ "while" then (st, RRes.panic)
            else
              match wargs with
              | [c] =>
                match interp fuel st c with
                | (st1, RRes.ok cond) =>
                  if cond.is_truthy then ({ st1 with line_no := k }, RRes.ok Value.nil)
                  else (st1, RRes.ok Value.nil)
                | (st1, RRes.err _) => (st1, RRes.panic)
                | (st1, RRes.panic) => (st1, RRes.panic)
                | (st1, RRes.externalCall) => (st1, RRes.externalCall)
                | (st1, RRes.fuelOut) => (st1, RRes.fuelOut)
              | _ => (st, RRes.panic)
          | _ => (st, RRes.err ("Expected if statement, got " ++ debugNode wline.node))) = _
  rw [hws]
  rfl

theorem interp_loop_step (fuel : Nat) (st : KState) (k : Nat) (rest : List Nat)
    (wline : Line) (cond : Node) (v : Value)
    (hws : st.while_stack = k :: rest)
    (hprog : st.program.get? k = some wline)
    (hwnode : wline.node = .builtinCommand "while" [cond])
    (hcond : interp (fuel + 1) st cond = (st, .ok v)) :
    interp (fuel + 3) st (.builtinCommand "loop" [])
      = (if v.is_truthy then ({ st with line_no := k }, .ok .nil)
         else (st, .ok .nil)) := by
  show (if st.while_stack.length = 0 then
      (st, RRes.err "Cannot loop; while stack is empty!")
    else
      match st.while_stack.head? with
      | none => (st, RRes.panic)
      | some k =>
        match st.program.get? k with
        | none => (st, RRes.panic)
        | some wline =>
          match wline.node with
          | .builtinCommand wname wargs =>
            if wname ≠ "while" then (st, RRes.panic)
            else
              match wargs with
              | [c] =>
                match interp (fuel + 1) st c with
                | (st1, RRes.ok cond) =>
                  if cond.is_truthy then ({ st1 with line_no := k }, RRes.ok Value.nil)
                  else (st1, RRes.ok Value.nil)
                | (st1, RRes.err _) => (st1, RRes.panic)
                | (st1, RRes.panic) => (st1, RRes.panic)
                | (st1, RRes.externalCall) => (st1, RRes.externalCall)
                | (st1, RRes.fuelOut) => (st1, RRes.fuelOut)
              | _ => (st, RRes.panic)
          | _ => (st, RRes.err ("Expected if statement, got " ++ debugNode wline.node))) = _
  conv_lhs => rw [hws]
  show (match st.program.get? k with
    | none => (st, RRes.panic)
    | some wline =>
      match wline.node with
      | .builtinCommand wname wargs =>
        if wname ≠ "while" then (st, RRes.panic)
        else
          match wargs with
          | [c] =>
            match interp (fuel + 1) st c with
            | (st1, RRes.ok cond) =>
              if cond.is_truthy then ({ st1 with line_no := k }, RRes.ok Value.nil)
              else (st1, RRes.ok Value.nil)
            | (st1, RRes.err _) => (st1, RRes.panic)
            | (st1, RRes.panic) => (st1, RRes.panic)
            | (st1, RRes.externalCall) => (st1, RRes.externalCall)
            | (st1, RRes.fuelOut) => (st1, RRes.fuelOut)
          | _ => (st, RRes.panic)
      | _ => (st, RRes.err ("Expected if statement, got " ++ debugNode wline.node))) = _
  rw [hprog]
  show (match wline.node with
    | .builtinCommand wname wargs =>
      if wname ≠ "while" then (st, RRes.panic)
      else
        match wargs with
        | [c] =>
          match interp (fuel + 1) st c with
          | (st1, RRes.ok cond) =>
            if cond.is_truthy then ({ st1 with line_no := k }, RRes.ok Value.nil)
            else (st1, RRes.ok Value.nil)
          | (st1, RRes.err _) => (st1, RRes.panic)
          | (st1, RRes.panic) => (st1, RRes.panic)
          | (st1, RRes.externalCall) => (st1, RRes.externalCall)
          | (st1, RRes.fuelOut) => (st1, RRes.fuelOut)
        | _ => (st, RRes.panic)
    | _ => (st, RRes.err ("Expected if statement, got " ++ debugNode wline.node))) = _
  rw [hwnode]
  show (match interp (fuel + 1) st cond with
    | (st1, RRes.ok cond) =>
      if cond.is_truthy then ({ st1 with line_no := k }, RRes.ok Value.nil)
      else (st1, RRes.ok Value.nil)
    | (st1, RRes.err _) => (st1, RRes.panic)
    | (st1, RRes.panic) => (st1, RRes.panic)
    | (st1, RRes.externalCall) => (st1, RRes.externalCall)
    | (st1, RRes.fuelOut) => (st1, RRes.fuelOut)) = _
  rw [hcond]

theorem interp_gosub_step (fuel : Nat) (st st1 : KState) (arg : Node) (L : Int) (j : Nat)
    (harg : interp fuel st arg = (st1, .ok (.integer L)))
    (hfind : st1.program.findIdx? (fun x => (x.line_no : Int) == L) = some j) :
    interp (fuel + 2) st (.builtinCommand "gosub" [arg])
      = ({ st1 with call_stack := st1.line_no :: st1.call_stack, line_no := j,
                    no_increment_instr_counter := true }, .ok .nil) := by
  show bindI (interp fuel st arg) (fun st1 v =>
      match v with
      | .integer num =>
        match st1.program.findIdx? (fun x => (x.line_no : Int) == num) with
        | some j =>
          ({ st1 with call_stack := st1.line_no :: st1.call_stack,
                      line_no := j, no_increment_instr_counter := true },
           RRes.ok Value.nil)
        | none => (st1, RRes.err ("Gosub: Could not find line " ++ toString num))
      | _ =>
        bindI (interp fuel st1 arg) fun st2 v2 =>
          (st2, RRes.err ("Expected integer, got " ++ debugValue v2))) = _
  rw [harg]
  show (match st1.program.findIdx? (fun x => (x.line_no : Int) == L) with
    | some j =>
      ({ st1 with call_stack := st1.line_no :: st1.call_stack,
                  line_no := j, no_increment_instr_counter := true },
       RRes.ok Value.nil)
    | none => (st1, RRes.err ("Gosub: Could not find line " ++ toString L))) = _
  rw [hfind]

theorem interp_ret_step (fuel : Nat) (st : KState) (i : Nat) (rest : List Nat)
    (hcs : st.call_stack = i :: rest) :
    interp (fuel + 2) st (.builtinCommand "ret" [])
      = ({ st with call_stack := rest, line_no := i }, .ok .nil) := by
  show (match st.call_stack with
    | i :: rest => ({ st with call_stack := rest, line_no := i }, RRes.ok Value.nil)
    | [] => (st, RRes.err "Cannot return; callstack is empty!")) = _
  rw [hcs]

/-! ## Claim theorems -/

/-- C1 (counterexample): the claim says a falsy `while` scans forward to the
matching `loop` and skips the body entirely, so in the stored program
`10 x = 0 / 20 while 0 / 30 x = 1 / 40 loop / 50 y = 2` the body line
`30 x = 1` would never run and `x` would remain `0`. Running the program
through the embedding shows the body *is* executed (`x` ends at `1`, and the
run then fails at `loop` because no while-frame was ever pushed), refuting
the claim. -/
theorem C1_while_falsy_body_executed :
    envGet (runProgram 40
        ["10 x = 0", "20 while 0", "30 x = 1", "40 loop", "50 y = 2"]).1.vars "x"
      = some (Value.integer 1)
    ∧ ¬ (envGet (runProgram 40
        ["10 x = 0", "20 while 0", "30 x = 1", "40 loop", "50 y = 2"]).1.vars "x"
      = some (Value.integer 0)) := by
  rw [cwRun]
  refine ⟨rfl, fun h => ?_⟩
  have h' : some (Value.integer 1) = some (Value.integer 0) := h
  injection h' with h2
  injection h2 with h3
  exact absurd h3 (by decide)

/-- C1 (amended): when the interpreter executes a `while` statement whose
condition evaluates falsy, it does not scan forward and does not move the
cursor: no while-frame is pushed and the statement falls through, so the
default advance lands on the first body line and the loop body *is*
executed (`src/koneko.rs` lines 1136-1148; the forward scan exists only in
the uncompiled `koneko_basic.rs` copy). -/
theorem C1_while_falsy_falls_through (fuel : Nat) (st : KState) (ln : Line)
    (cond : Node) (v : Value)
    (hline : st.program.get? st.line_no = some ln)
    (hnode : ln.node = .builtinCommand "while" [cond])
    (hcond : interp fuel st cond = (st, .ok v))
    (hfalse : v.is_truthy = false)
    (hni : st.no_increment_instr_counter = false) :
    exec_current_line (fuel + 2) st
      = ({ st with line_no := st.line_no + 1, no_increment_instr_counter := false },
         .ok .nil) := by
  have h1 := interp_while_step fuel st cond v hcond
  rw [hfalse] at h1
  rw [if_neg (by simp)] at h1
  rw [← hnode] at h1
  have h2 := exec_current_line_ok (fuel + 2) st st ln Value.nil hline h1
  rw [advanceCursor_noflag st hni] at h2
  exact h2

/-- Witness for C1's amended theorem at a concrete state: cursor on a stored
`while 0`, the step leaves the while-stack empty and advances into the body. -/
theorem C1_while_falsy_falls_through_witness :
    exec_current_line 3 exWhileSt
      = ({ exWhileSt with line_no := 1, no_increment_instr_counter := false },
         .ok .nil) :=
  C1_while_falsy_falls_through 1 exWhileSt
    ⟨20, .builtinCommand "while" [.integer 0], "20 while 0"⟩
    (.integer 0) (.integer 0) rfl rfl rfl rfl rfl

/-- C2 (counterexample): the claim says `for i=1 to 5`/`next i` runs the body
for i = 1,2,3,4,5. With the body `s = s * 10 + i` recording each visited `i`
as a decimal digit, five iterations would end with `s = 12345`; the run ends
with `s = 1234` — the body never runs with `i = 5`, because `next` continues
only while `value*sign(step) < end` holds strictly. -/
theorem C2_five_iterations_counterexample :
    envGet (runProgram 40
        ["10 s = 0", "20 for i = 1 to 5", "30 s = s * 10 + i", "40 next i"]).1.vars "s"
      = some (Value.integer 1234)
    ∧ ¬ (envGet (runProgram 40
        ["10 s = 0", "20 for i = 1 to 5", "30 s = s * 10 + i", "40 next i"]).1.vars "s"
      = some (Value.integer 12345)) := by
  rw [c2Run]
  refine ⟨rfl, fun h => ?_⟩
  have h' : some (Value.integer 1234) = some (Value.integer 12345) := h
  injection h' with h2
  injection h2 with h3
  exact absurd h3 (by decide)

/-- C2 (amended): running the stored program `for i=1 to 5` / `s = s*10+i` /
`next i` executes the loop body exactly for i = 1, 2, 3 and 4 (four
iterations; the pass where the incremented value reaches the end value 5 is
not executed, since `next` continues only while `value*sign(step) < end`
with strict `<`), and after the final iteration the variable `i` is removed
from the environment. -/
theorem C2_for_next_amended :
    runProgram 40 ["10 s = 0", "20 for i = 1 to 5", "30 s = s * 10 + i", "40 next i"]
      = (mkSt c2P [("s", Value.integer 1234)] 4 [] [], .ok ())
    ∧ envGet (runProgram 40
        ["10 s = 0", "20 for i = 1 to 5", "30 s = s * 10 + i", "40 next i"]).1.vars "i"
      = none := by
  refine ⟨c2Run, ?_⟩
  rw [c2Run]
  rfl

/-- C3 (counterexample): the claim says `for i=5 to 1 step -1`/`next i` runs
the body for i = 5,4,3,2,1. With the body `s = s * 10 + i` recording each
visited `i` as a decimal digit, that would end with `s = 54321`; the run
ends with `s = 543210` — a sixth iteration with `i = 0` runs, because the
continuation test is `value*sign(step) < end` with the end value *not*
scaled by `sign(step)` (for `end = 1`, `-value < 1` still holds at
`value = 0`). -/
theorem C3_downward_counterexample :
    envGet (runProgram 44
        ["10 s = 0", "20 for i = 5 to 1 step -1", "30 s = s * 10 + i", "40 next i"]).1.vars "s"
      = some (Value.integer 543210)
    ∧ ¬ (envGet (runProgram 44
        ["10 s = 0", "20 for i = 5 to 1 step -1", "30 s = s * 10 + i", "40 next i"]).1.vars "s"
      = some (Value.integer 54321)) := by
  rw [c3Run]
  refine ⟨rfl, fun h => ?_⟩
  have h' : some (Value.integer 543210) = some (Value.integer 54321) := h
  injection h' with h2
  injection h2 with h3
  exact absurd h3 (by decide)

/-- C3 (amended): running the stored program `for i=5 to 1 step -1` /
`s = s*10+i` / `next i` executes the loop body exactly for
i = 5, 4, 3, 2, 1 and 0 (six iterations), and then removes `i` from the
environment: after adding the step, the loop continues iff
`value*sign(step)` is less than `end` — the end bound is *not* multiplied
by `sign(step)` (`src/koneko.rs` line 1080), so a downward loop overshoots
its end bound. -/
theorem C3_for_step_amended :
    runProgram 44 ["10 s = 0", "20 for i = 5 to 1 step -1", "30 s = s * 10 + i", "40 next i"]
      = (mkSt c3P [("s", Value.integer 543210)] 4 [] [], .ok ())
    ∧ envGet (runProgram 44
        ["10 s = 0", "20 for i = 5 to 1 step -1", "30 s = s * 10 + i", "40 next i"]).1.vars "i"
      = none := by
  refine ⟨c3Run, ?_⟩
  rw [c3Run]
  rfl

/-- C4 (counterexample): the claim says `==` evaluates to structural
equality, yielding a truthy result on equal values rather than failing;
but lexing, parsing and evaluating `1 == 1` produces an error (the binary
operator dispatch in the compiled `src/koneko.rs` has no `EqEq` arm). -/
theorem C4_structural_eq_counterexample :
    (evalExpr "1 == 1").isErr = true := by rfl

/-- C4 (amended): the `Node::BinOp` dispatch of `Koneko::interpret` has no
arm for `==`: for every pair of successfully evaluated operands, a `==`
comparison falls to the catch-all and evaluates to an error ("Cannot
compare ... with op ..."), never to a truthy/falsy result. (The structural
`left == right` arm exists only in the uncompiled `koneko_basic.rs` copy.) -/
theorem C4_eqeq_always_errors (fuel : Nat) (st st1 st2 : KState) (l r : Node)
    (lv rv : Value)
    (hl : interp fuel st l = (st1, .ok lv))
    (hr : interp fuel st1 r = (st2, .ok rv)) :
    (interp (fuel + 1) st (.binOp .eqEq l r)).2.isErr = true := by
  show (bindI (interp fuel st l) fun st1 lv =>
    bindI (interp fuel st1 r) fun st2 rv => (st2, evalBinOp .eqEq lv rv)).2.isErr = true
  rw [hl]
  show (bindI (interp fuel st1 r) fun st2 rv =>
    (st2, evalBinOp Token.eqEq lv rv)).2.isErr = true
  rw [hr]
  rfl

/-- Witness for C4's amended theorem at concrete operands `1 == 2`. -/
theorem C4_eqeq_always_errors_witness :
    (interp 2 initK (.binOp .eqEq (.integer 1) (.integer 2))).2.isErr = true :=
  C4_eqeq_always_errors 1 initK initK initK (.integer 1) (.integer 2)
    (.integer 1) (.integer 2) rfl rfl

/-- C5 (counterexample): the claim says that when `loop` re-evaluates the
owning `while`'s condition and finds it falsy, it pops the while-frame. In
the run `10 x = 1 / 20 while x / 30 x = 0 / 40 loop / 50 y = 5` the `while`
pushes frame `[1]`; at `loop` the condition `x` is falsy, execution falls
through past `loop` (reaching `50 y = 5`) — but the frame is still on the
while-stack at the end of the run: the falsy branch never pops. -/
theorem C5_loop_pop_counterexample :
    (runProgram 40 ["10 x = 1", "20 while x", "30 x = 0", "40 loop", "50 y = 5"]).1.while_stack
      = [1]
    ∧ ([1] : List Nat) ≠ []
    ∧ envGet (runProgram 40
        ["10 x = 1", "20 while x", "30 x = 0", "40 loop", "50 y = 5"]).1.vars "y"
      = some (Value.integer 5) := by
  rw [clRun]
  exact ⟨rfl, by decide, rfl⟩

/-- C5 (amended): executing `loop` errors if the while stack is empty;
otherwise it peeks (without popping) the top while-frame and re-evaluates
the owning `while`'s condition: if truthy it sets the cursor so the default
advance resumes at the first body line after the owning `while`; if falsy
it falls through past the `loop` — but the while-frame is *not* popped (the
falsy branch of the `loop` arm in `src/koneko.rs` lines 1129-1134 leaves
the stack unchanged). -/
theorem C5_loop_semantics :
    (∀ (fuel : Nat) (st : KState) (ln : Line),
      st.program.get? st.line_no = some ln →
      ln.node = .builtinCommand "loop" [] →
      st.while_stack = [] →
      st.no_increment_instr_counter = false →
      exec_current_line (fuel + 2) st
        = ({ st with line_no := st.line_no + 1, no_increment_instr_counter := false },
           .err "Cannot loop; while stack is empty!"))
    ∧ (∀ (fuel : Nat) (st : KState) (ln wline : Line) (k : Nat) (rest : List Nat)
        (cond : Node) (v : Value),
      st.program.get? st.line_no = some ln →
      ln.node = .builtinCommand "loop" [] →
      st.while_stack = k :: rest →
      st.program.get? k = some wline →
      wline.node = .builtinCommand "while" [cond] →
      interp (fuel + 1) st cond = (st, .ok v) →
      st.no_increment_instr_counter = false →
      exec_current_line (fuel + 3) st
        = (if v.is_truthy then
            ({ st with line_no := k + 1, no_increment_instr_counter := false }, .ok .nil)
           else
            ({ st with line_no := st.line_no + 1, no_increment_instr_counter := false },
             .ok .nil))) := by
  constructor
  · intro fuel st ln hline hnode hws hni
    have h1 := interp_loop_empty fuel st hws
    rw [← hnode] at h1
    have h2 := exec_current_line_err (fuel + 2) st st ln _ hline h1
    rw [advanceCursor_noflag st hni] at h2
    exact h2
  · intro fuel st ln wline k rest cond v hline hnode hws hprog hwnode hcond hni
    have h1 := interp_loop_step fuel st k rest wline cond v hws hprog hwnode hcond
    rw [← hnode] at h1
    by_cases hv : v.is_truthy
    · rw [if_pos hv] at h1
      have h2 := exec_current_line_ok (fuel + 3) st _ ln _ hline h1
      rw [advanceCursor_noflag { st with line_no := k } hni] at h2
      rw [if_pos hv]
      exact h2
    · rw [if_neg hv] at h1
      have h2 := exec_current_line_ok (fuel + 3) st _ ln _ hline h1
      rw [advanceCursor_noflag _ hni] at h2
      rw [if_neg hv]
      exact h2

/-- Witness for C5's amended theorem at concrete states: the empty-stack
error, a truthy `loop` jumping back to the body, and a falsy `loop` falling
through with the frame still on the stack. -/
theorem C5_loop_semantics_witness :
    exec_current_line 3 exLoopEmptySt
      = ({ exLoopEmptySt with line_no := 2, no_increment_instr_counter := false },
         .err "Cannot loop; while stack is empty!")
    ∧ exec_current_line 4 exLoopTruthySt
      = ({ exLoopTruthySt with line_no := 1, no_increment_instr_counter := false },
         .ok .nil)
    ∧ exec_current_line 4 exLoopFalsySt
      = ({ exLoopFalsySt with line_no := 3, no_increment_instr_counter := false },
         .ok .nil) := by
  refine ⟨?_, ?_, ?_⟩
  · exact C5_loop_semantics.1 1 exLoopEmptySt
      ⟨30, .builtinCommand "loop" [], "30 loop"⟩ rfl rfl rfl rfl
  · exact C5_loop_semantics.2 1 exLoopTruthySt
      ⟨30, .builtinCommand "loop" [], "30 loop"⟩
      ⟨10, .builtinCommand "while" [.integer 1], "10 while 1"⟩ 0 []
      (.integer 1) (.integer 1) rfl rfl rfl rfl rfl rfl rfl
  · exact C5_loop_semantics.2 1 exLoopFalsySt
      ⟨30, .builtinCommand "loop" [], "30 loop"⟩
      ⟨10, .builtinCommand "while" [.integer 0], "10 while 0"⟩ 0 []
      (.integer 0) (.integer 0) rfl rfl rfl rfl rfl rfl rfl

/-- C6: the claim says every lexing/parsing/evaluation failure is returned
as a textual error and no input panics; but the code panics on exactly the
claim's own examples: evaluating `1/0` reaches Rust's integer division
(`left / right`, `src/koneko.rs` line 749) with no zero check — a
divide-by-zero panic; entering the line `1+` makes the parser's `mul` read
`tokens[idx]` past the end of the token list (`src/basic.rs` line 467) — an
index-out-of-bounds panic; and `int("abc")` reaches
`string.parse::<i64>().unwrap()` (`src/basic.rs` line 63) — an unwrap
panic. -/
theorem C6_panics_on_failures :
    evalExpr "1/0" = .panic
    ∧ (add_line [] "1+").2 = .panic
    ∧ evalExpr "int(\"abc\")" = .panic := ⟨rfl, rfl, rfl⟩

/-- C7: `gosub L` resolves `L` to a store index, pushes the current cursor
(the gosub call-site index) onto the call stack and jumps (opting out of
the advance); `ret` pops that index and sets the cursor to it *without*
opting out, so the default advance resumes at the stored line immediately
after the line containing the original `gosub` — not at the target index
and not at the callee's following line. -/
theorem C7_gosub_ret_resume :
    (∀ (fuel : Nat) (st st1 : KState) (ln : Line) (arg : Node) (L : Int) (j : Nat),
      st.program.get? st.line_no = some ln →
      ln.node = .builtinCommand "gosub" [arg] →
      interp fuel st arg = (st1, .ok (.integer L)) →
      st1.program.findIdx? (fun x => (x.line_no : Int) == L) = some j →
      exec_current_line (fuel + 2) st
        = ({ st1 with call_stack := st1.line_no :: st1.call_stack, line_no := j,
                      no_increment_instr_counter := false }, .ok .nil))
    ∧ (∀ (fuel : Nat) (st : KState) (ln : Line) (i : Nat) (rest : List Nat),
      st.program.get? st.line_no = some ln →
      ln.node = .builtinCommand "ret" [] →
      st.call_stack = i :: rest →
      st.no_increment_instr_counter = false →
      exec_current_line (fuel + 2) st
        = ({ st with call_stack := rest, line_no := i + 1,
                     no_increment_instr_counter := false }, .ok .nil)) := by
  constructor
  · intro fuel st st1 ln arg L j hline hnode harg hfind
    have h1 := interp_gosub_step fuel st st1 arg L j harg hfind
    rw [← hnode] at h1
    have h2 := exec_current_line_ok (fuel + 2) st _ ln _ hline h1
    rw [advanceCursor_flag
      { st1 with call_stack := st1.line_no :: st1.call_stack, line_no := j,
                 no_increment_instr_counter := true } rfl] at h2
    exact h2
  · intro fuel st ln i rest hline hnode hcs hni
    have h1 := interp_ret_step fuel st i rest hcs
    rw [← hnode] at h1
    have h2 := exec_current_line_ok (fuel + 2) st _ ln _ hline h1
    rw [advanceCursor_noflag { st with call_stack := rest, line_no := i } hni] at h2
    exact h2

/-- Witness for C7 at a concrete stored program
`10 a = 1 / 20 gosub 40 / 30 b = 2 / 40 ret`: the `gosub` at index 1 jumps
to the `ret` at index 3 pushing call-site index 1; the `ret` then resumes
at index 2, the line immediately after the `gosub`. -/
theorem C7_gosub_ret_resume_witness :
    exec_current_line 3 exGosubSt
      = ({ exGosubSt with call_stack := [1], line_no := 3,
                          no_increment_instr_counter := false }, .ok .nil)
    ∧ exec_current_line 3 exRetSt
      = ({ exRetSt with call_stack := [], line_no := 2,
                        no_increment_instr_counter := false }, .ok .nil) := by
  constructor
  · exact C7_gosub_ret_resume.1 1 exGosubSt exGosubSt
      ⟨20, .builtinCommand "gosub" [.integer 40], "20 gosub 40"⟩
      (.integer 40) 40 3 rfl rfl rfl rfl
  · exact C7_gosub_ret_resume.2 1 exRetSt
      ⟨40, .builtinCommand "ret" [], "40 ret"⟩ 1 [] rfl rfl rfl rfl

/-- C8: lexing, parsing and evaluating the expression `2 + 3 * 4` yields
Integer 14, `(2+3)*4` yields Integer 20, and `2 - -3` yields Integer 5; the
last parses with the leading `-` of `-3` as a unary operator consumed at the
multiplicative level, i.e. as `2 - (-(3))`. -/
theorem C8_expression_precedence :
    evalExpr "2 + 3 * 4" = .ok (.integer 14)
    ∧ evalExpr "(2+3)*4" = .ok (.integer 20)
    ∧ evalExpr "2 - -3" = .ok (.integer 5)
    ∧ parseExprTop "2 - -3"
        = .ok (.binOp .sub (.integer 2) (.unOp .sub (.integer 3))) :=
  ⟨rfl, rfl, rfl, rfl⟩

/-- C10: a Nil operand is accepted by the ordering operators `<`, `>`, `<=`,
`>=` and compares as the number 0 (`Value::comparison_value` maps Nil to
`0.0`), so `nil < 1` evaluates to Integer 1 rather than failing — while the
same operators on a String or Array operand are errors. -/
theorem C10_nil_ordering :
    Value.comparison_value .nil = .ok (F64.ofInt 0)
    ∧ (∀ (fuel : Nat) (st : KState) (n : Int),
        interp (fuel + 2) st (.binOp .lt .nilN (.integer n))
          = (st, .ok (.integer (if F64.blt (F64.ofInt 0) (F64.ofInt n) then 1 else 0))))
    ∧ (∀ (fuel : Nat) (st : KState) (n : Int),
        interp (fuel + 2) st (.binOp .gt .nilN (.integer n))
          = (st, .ok (.integer (if F64.blt (F64.ofInt n) (F64.ofInt 0) then 1 else 0))))
    ∧ (∀ (fuel : Nat) (st : KState) (n : Int),
        interp (fuel + 2) st (.binOp .gte .nilN (.integer n))
          = (st, .ok (.integer (if F64.blt (F64.ofInt n) (F64.ofInt 0)
              || F64.blt (F64.abs (F64.sub (F64.ofInt 0) (F64.ofInt n))) epsK
              then 1 else 0))))
    ∧ (∀ (fuel : Nat) (st : KState) (n : Int),
        interp (fuel + 2) st (.binOp .lte .nilN (.integer n))
          = (st, .ok (.integer (if F64.blt (F64.ofInt 0) (F64.ofInt n)
              || F64.blt (F64.abs (F64.sub (F64.ofInt 0) (F64.ofInt n))) epsK
              then 1 else 0))))
    ∧ interp 2 initK (.binOp .lt .nilN (.integer 1)) = (initK, .ok (.integer 1))
    ∧ (∀ s : String, (Value.comparison_value (.string s)).isErr = true)
    ∧ (∀ vs : List Value, (Value.comparison_value (.array vs)).isErr = true) := by
  refine ⟨rfl, fun fuel st n => rfl, fun fuel st n => rfl, fun fuel st n => rfl,
    fun fuel st n => rfl, rfl, fun s => rfl, fun vs => rfl⟩
